import Mathlib

/-!
Shallow embedding of the sound-synthesis preset compiler
(`semantic_embeddings.py`, `normalizer.py`, `decision_heads.py`,
`graph_builder.py`, `core_models.py`) and proofs about its claims.

Python floats are modelled as rationals (`Rat`); transcendental operations
(`2**x`, `log10`, vector norms, the per-process `hash`, and numpy's seeded
random draws) are taken as explicit function parameters, so every theorem
holds for every possible behaviour of those primitives.  Fallible Python
code (uncaught `ValueError` / `IndexError` / `TypeError`) is modelled with
`Except String`.
-/

/-- Model of a dynamically-typed Python value as it appears in preset
fields: a number (int or float), a string, a list of numbers, or `None`. -/
inductive PyVal where
  | num (q : Rat)
  | str (s : String)
  | list (xs : List Rat)
  | noneV
deriving DecidableEq

/-- Python truthiness for the values `PyVal` can hold: `0`, `""`, `[]` and
`None` are falsy, everything else is truthy. -/
def pyTruthy : PyVal → Bool
  | .num q => q ≠ 0
  | .str s => s ≠ ""
  | .list xs => xs ≠ []
  | .noneV => false

/-- Python `x or default` on an optional field. -/
def pyOr (v : Option PyVal) (dflt : PyVal) : PyVal :=
  match v with
  | Option.none => dflt
  | Option.some w => if pyTruthy w then w else dflt

/-- Python `str.strip()`. -/
def pyStrip (s : String) : String :=
  String.mk (((s.data.dropWhile Char.isWhitespace).reverse.dropWhile
    Char.isWhitespace).reverse)

/-- Numeric value of a digit list, most significant first. -/
def digitsVal (cs : List Char) : Nat :=
  cs.foldl (fun a c => a * 10 + (c.toNat - 48)) 0

/-- Parse the exponent part of a float literal (after the `e`/`E`). -/
def parseExpPart (sign : Rat) (mant : Rat) (cs : List Char) : Option Rat :=
  let (esign, cs1) :=
    match cs with
    | '-' :: r => ((-1 : Int), r)
    | '+' :: r => ((1 : Int), r)
    | _ => ((1 : Int), cs)
  let ed := cs1.takeWhile Char.isDigit
  if ed = [] ∨ ed.length ≠ cs1.length then Option.none
  else Option.some (sign * mant * (10 : Rat) ^ (esign * (digitsVal ed : Int)))

/-- Model of Python `float(s)` on a string: optional sign, decimal digits
with an optional fractional part and exponent.  Returns `none` where Python
raises `ValueError`. -/
def parsePyFloat (s : String) : Option Rat :=
  let cs := (pyStrip s).data
  let (sign, cs1) :=
    match cs with
    | '-' :: r => ((-1 : Rat), r)
    | '+' :: r => ((1 : Rat), r)
    | _ => ((1 : Rat), cs)
  let ip := cs1.takeWhile Char.isDigit
  let rest := cs1.drop ip.length
  match rest with
  | [] => if ip = [] then Option.none else Option.some (sign * (digitsVal ip : Rat))
  | '.' :: r2 =>
    let fp := r2.takeWhile Char.isDigit
    let rest2 := r2.drop fp.length
    if ip = [] ∧ fp = [] then Option.none
    else
      let mant : Rat := (digitsVal ip : Rat) + (digitsVal fp : Rat) / (10 : Rat) ^ fp.length
      match rest2 with
      | [] => Option.some (sign * mant)
      | e :: r3 =>
        if e = 'e' ∨ e = 'E' then parseExpPart sign mant r3 else Option.none
  | e :: r3 =>
    if (e = 'e' ∨ e = 'E') ∧ ip ≠ [] then
      parseExpPart sign (digitsVal ip : Rat) r3
    else Option.none

/-- The message of the `ValueError` Python raises when `float(s)` fails. -/
def valueErrorFloat (s : String) : String :=
  "ValueError: could not convert string to float: " ++ s

/-- The message of an `IndexError` raised by indexing a too-short list. -/
def indexErrorMsg : String := "IndexError: list index out of range"

/-- The message of a `TypeError` raised by comparing incompatible types. -/
def typeErrorMsg : String := "TypeError: unsupported operand comparison"

/-- Drop the last `n` characters of a string (Python `s[:-n]`). -/
def strDropRight (s : String) (n : Nat) : String :=
  String.mk (s.data.take (s.data.length - n))

/-- Python `s.endswith(suff)` (list-based so that it evaluates in the
kernel). -/
def strEndsWith (s suff : String) : Bool :=
  suff.data.reverse.isPrefixOf s.data.reverse

/-- Split a character list at every occurrence of `c` (Python
`s.split(c)`). -/
def splitOnChar (c : Char) : List Char → List (List Char)
  | [] => [[]]
  | h :: t =>
    if h = c then [] :: splitOnChar c t
    else
      match splitOnChar c t with
      | [] => [[h]]
      | g :: gs => (h :: g) :: gs

/-- numpy `np.clip(x, lo, hi)`. -/
def npClip (x lo hi : Rat) : Rat :=
  if x < lo then lo else if x > hi then hi else x

/-- Render a rational for use inside issue strings (stands in for Python's
float formatting; only the fact that the value is embedded matters). -/
def ratStr (q : Rat) : String :=
  if q.den = 1 then toString q.num
  else toString q.num ++ "/" ++ toString q.den

namespace SemanticTokenizer

/-- The static stop-word set of `SemanticTokenizer._load_stop_words`. -/
def stop_words : List String :=
  ["a", "an", "and", "are", "as", "at", "be", "by", "for", "from",
   "has", "he", "in", "is", "it", "its", "of", "on", "that", "the",
   "to", "was", "will", "with", "or", "but", "not", "this", "these",
   "they", "them", "their", "there", "then", "than", "so", "if",
   "very", "much", "more", "most", "some", "any", "all", "each",
   "every", "no", "other", "another", "such", "only", "own", "same"]

/-- The static alias table of `SemanticTokenizer._load_kb_aliases`, in
source order.  The Python source is a dict literal, so a key that occurs
twice (e.g. `punchy`, `aggressive`) keeps its **last** value; lookups below
therefore search the reversed list. -/
def kb_aliases : List (String × String) :=
  [("warm", "warm"), ("hot", "warm"), ("cozy", "warm"),
   ("bright", "bright"), ("shiny", "bright"), ("sparkly", "bright"),
   ("dark", "dark"), ("moody", "dark"), ("ominous", "dark"),
   ("fat", "fat"), ("thick", "fat"),
   ("punchy", "punchy"), ("tight", "punchy"), ("snappy", "punchy"),
   ("soft", "soft"), ("gentle", "soft"), ("smooth", "soft"),
   ("harsh", "harsh"), ("aggressive", "harsh"), ("rough", "harsh"),
   ("analog", "analog"), ("vintage", "analog"), ("retro", "analog"),
   ("digital", "digital"), ("modern", "digital"), ("clean", "digital"),
   ("wood", "wood"), ("organic", "wood"), ("natural", "wood"),
   ("metal", "metal"), ("metallic", "metal"), ("steel", "metal"),
   ("glass", "glass"), ("glassy", "glass"), ("crystalline", "glass"),
   ("plastic", "plastic"), ("synthetic", "plastic"), ("artificial", "plastic"),
   ("sustained", "sustained"), ("long", "sustained"), ("held", "sustained"),
   ("percussive", "percussive"), ("short", "percussive"), ("punchy", "percussive"),
   ("evolving", "evolving"), ("changing", "evolving"), ("morphing", "evolving"),
   ("static", "static"), ("stable", "static"), ("fixed", "static"),
   ("dreamy", "dreamy"), ("ethereal", "dreamy"), ("floating", "dreamy"),
   ("energetic", "energetic"), ("exciting", "energetic"), ("upbeat", "energetic"),
   ("calm", "calm"), ("peaceful", "calm"), ("serene", "calm"),
   ("aggressive", "aggressive"), ("intense", "aggressive"), ("powerful", "aggressive"),
   ("lush", "lush"), ("rich", "lush"), ("full", "lush"),
   ("minimal", "minimal"), ("sparse", "minimal"), ("simple", "minimal"),
   ("pad", "pad"), ("atmosphere", "pad"), ("background", "pad"),
   ("bass", "bass"), ("low", "bass"), ("foundation", "bass"),
   ("lead", "lead"), ("melody", "lead"), ("solo", "lead"),
   ("fx", "fx"), ("effect", "fx"), ("processing", "fx"),
   ("texture", "texture"), ("ambient", "texture"), ("soundscape", "texture")]

/-- `self.kb_aliases.get(token, token)`: the alias of a token, defaulting
to the token itself.  Reversed lookup, because later dict-literal entries
override earlier ones. -/
def aliasOf (t : String) : String :=
  (kb_aliases.reverse.lookup t).getD t

/-- Python `str.lower()` (ASCII case folding suffices for this model). -/
def pyLower (s : String) : String := String.mk (s.data.map Char.toLower)

/-- A regex `\w` character: alphanumeric or underscore. -/
def isWordChar (c : Char) : Bool := c.isAlphanum || c = '_'

/-- Maximal runs of word characters; `cur` is the current run, reversed. -/
def wordRunsAux : List Char → List Char → List String
  | [], cur => if cur = [] then [] else [String.mk cur.reverse]
  | c :: rest, cur =>
    if isWordChar c then wordRunsAux rest (c :: cur)
    else if cur = [] then wordRunsAux rest []
    else String.mk cur.reverse :: wordRunsAux rest []

/-- Model of `re.findall(r'\b\w+\b', text)`: the maximal word-character
runs of the text. -/
def findallWords (s : String) : List String := wordRunsAux s.data []

/-- `SemanticTokenizer.tokenize`, modelled faithfully from the source.
The `token_cache` is behaviourally transparent (the function is pure) and
is omitted.  Note the source bug: the deduplication loop iterates over the
freshly created empty `unique_tokens` list instead of `canonical_tokens`,
so it performs no iterations and the function returns the empty list. -/
def tokenize (text : String) : List String :=
  let t := pyStrip (pyLower text)
  let tokens := findallWords t
  let canonical_tokens :=
    (tokens.filter (fun tok => ¬ stop_words.contains tok)).map aliasOf
  let unique_tokens : List String := []
  -- `for token in unique_tokens:` iterates over the list initialised just
  -- above, which is empty, so the loop body never runs:
  let folded := unique_tokens.foldl
    (fun (acc : List String × List String) tok =>
      if acc.2.contains tok then acc else (acc.1 ++ [tok], tok :: acc.2))
    (unique_tokens, [])
  let _ := canonical_tokens
  folded.1

end SemanticTokenizer

/-- C1: the claim says `tokenize` returns the canonical concept tokens of
the text (e.g. tokenizing "hot cozy" yields a non-empty list containing
"warm", and any text with a non-stop-word word tokenizes to a non-empty
list).  The code instead returns `[]` for every input: the deduplication
loop iterates over the just-initialised empty `unique_tokens` list instead
of `canonical_tokens`, discarding all tokens. -/
theorem c1_tokenize_always_empty :
    (∀ text : String, SemanticTokenizer.tokenize text = []) ∧
    SemanticTokenizer.tokenize "hot cozy" = [] ∧
    ¬ ("warm" ∈ SemanticTokenizer.tokenize "hot cozy") := by
  refine ⟨fun text => rfl, rfl, ?_⟩
  intro h
  simp [SemanticTokenizer.tokenize] at h

/-! ## Core data model (`core_models.py`) -/

/-- `SynthesisType` enum. -/
inductive SynthesisType where
  | subtractive | additive | fm | wavetable | granular
  | physical_modeling | modular | hybrid_ai | ensemble_chorus
deriving DecidableEq

/-- `OscillatorType` enum. -/
inductive OscillatorType where
  | sine | sawtooth | triangle | square | pulse | noise | fm | wavetable
  | supersaw | granular | additive | karplus_strong | chaos_oscillator
  | noise_modulated | neural_morph
deriving DecidableEq

/-- The `.value` string of an `OscillatorType`. -/
def OscillatorType.value : OscillatorType → String
  | .sine => "sine" | .sawtooth => "sawtooth" | .triangle => "triangle"
  | .square => "square" | .pulse => "pulse" | .noise => "noise"
  | .fm => "fm" | .wavetable => "wavetable" | .supersaw => "supersaw"
  | .granular => "granular" | .additive => "additive"
  | .karplus_strong => "karplus_strong" | .chaos_oscillator => "chaos_oscillator"
  | .noise_modulated => "noise_modulated" | .neural_morph => "neural-morph"

/-- `FilterType` enum. -/
inductive FilterType where
  | low_pass | high_pass | band_pass | notch | moog_ladder | tb303
  | formant | comb | ensemble | multimode_adaptive | multimode_chaotic
deriving DecidableEq

/-- The `.value` string of a `FilterType`. -/
def FilterType.value : FilterType → String
  | .low_pass => "low-pass" | .high_pass => "high-pass"
  | .band_pass => "band-pass" | .notch => "notch"
  | .moog_ladder => "moog_ladder" | .tb303 => "tb303"
  | .formant => "formant" | .comb => "comb" | .ensemble => "ensemble"
  | .multimode_adaptive => "multimode_adaptive"
  | .multimode_chaotic => "multimode_chaotic"

/-- `EnvelopeType` enum. -/
inductive EnvelopeType where
  | ad | adsr | ahdsr | dadsr
deriving DecidableEq

/-- The `.value` string of an `EnvelopeType`. -/
def EnvelopeType.value : EnvelopeType → String
  | .ad => "AD" | .adsr => "ADSR" | .ahdsr => "AHDSR" | .dadsr => "DADSR"

/-- `EnvelopeCurve` enum. -/
inductive EnvelopeCurve where
  | linear | exponential | logarithmic | nonlinear
deriving DecidableEq

/-- The `.value` string of an `EnvelopeCurve`. -/
def EnvelopeCurve.value : EnvelopeCurve → String
  | .linear => "linear" | .exponential => "exponential"
  | .logarithmic => "logarithmic" | .nonlinear => "nonlinear"

/-- `Role` enum. -/
inductive Role where
  | pad | bass | lead | fx | texture | arp | drone | rhythm | bell
  | chord | pluck
deriving DecidableEq

/-- Raw `OscillatorConfig` as parsed from a source document: numeric
fields may hold strings, numbers or ranges (`PyVal`). -/
structure OscillatorConfig where
  types : List OscillatorType
  mix_ratios : List PyVal
  detune : PyVal
  modulation_index : Option PyVal
  carrier_ratio : Option PyVal
  harmonics : Option (List Rat)
  morph_rate : Option PyVal
  table_index : Option PyVal
  grain_density : Option PyVal
  grain_size : Option PyVal
  pluck_position : Option String
  blend_mode : Option String
deriving DecidableEq

/-- Raw `EnvelopeConfig`. -/
structure EnvelopeConfig where
  type : EnvelopeType
  attack : PyVal
  decay : PyVal
  sustain : PyVal
  release : PyVal
  hold : PyVal
  delay : PyVal
  curve : EnvelopeCurve
deriving DecidableEq

/-- Raw `FilterConfig`. -/
structure FilterConfig where
  type : FilterType
  cutoff : PyVal
  resonance : PyVal
  envelope_amount : PyVal
  slope : String
deriving DecidableEq

/-- Raw `EffectConfig`. -/
structure EffectConfig where
  type : String
  mix : PyVal
  feedback : Option PyVal
  time : Option PyVal
  gain : Option PyVal
  amount : Option PyVal
  decay : Option PyVal
  wet : Option PyVal
  rate : Option PyVal
  depth : Option PyVal
  frequency : Option PyVal
  density : Option PyVal
  threshold : Option PyVal
  ratio : Option PyVal
deriving DecidableEq

/-- `SoundCharacteristics` (the `emotional` list of dicts is modelled as
key/value pairs). -/
structure SoundCharacteristics where
  timbral : String
  material : String
  emotional : List (String × PyVal)
  dynamic : String
deriving DecidableEq

/-- `TopologicalMetadata`. -/
structure TopologicalMetadata where
  damping : String
  spectral_complexity : String
  manifold_position : String
deriving DecidableEq

/-- `AIControl`. -/
structure AIControl where
  enabled : Bool
  modulation_depth : Rat
  jitter_amount : Rat
  morphing_rate : Rat
deriving DecidableEq

/-- `JsonPreset`: the raw preset as produced by the parser. -/
structure JsonPreset where
  name : String
  synthesis_type : SynthesisType
  oscillator : OscillatorConfig
  envelope : EnvelopeConfig
  filter : FilterConfig
  fx : List EffectConfig
  sound_characteristics : SoundCharacteristics
  topological_metadata : TopologicalMetadata
  ai_control : AIControl
  role : Option Role
  metadata : List (String × PyVal)
deriving DecidableEq

/-- Normalized `OscillatorConfig`: every numeric field resolved to a
rational in its canonical unit. -/
structure OscillatorConfigN where
  types : List OscillatorType
  mix_ratios : List Rat
  detune : Rat
  modulation_index : Option Rat
  carrier_ratio : Option Rat
  harmonics : Option (List Rat)
  morph_rate : Option PyVal
  table_index : Option PyVal
  grain_density : Option PyVal
  grain_size : Option PyVal
  pluck_position : Option String
  blend_mode : Option String
deriving DecidableEq

/-- Normalized `EnvelopeConfig` (times in seconds, sustain in [0,1]). -/
structure EnvelopeConfigN where
  type : EnvelopeType
  attack : Rat
  decay : Rat
  sustain : Rat
  release : Rat
  hold : Rat
  delay : Rat
  curve : EnvelopeCurve
deriving DecidableEq

/-- Normalized `FilterConfig` (cutoff in Hz, resonance in [0,1]). -/
structure FilterConfigN where
  type : FilterType
  cutoff : Rat
  resonance : Rat
  envelope_amount : Rat
  slope : String
deriving DecidableEq

/-- Normalized `EffectConfig`. -/
structure EffectConfigN where
  type : String
  mix : Rat
  feedback : Option Rat
  time : Option Rat
  gain : Option Rat
  amount : Option Rat
  decay : Option Rat
  wet : Option Rat
  rate : Option Rat
  depth : Option Rat
  frequency : Option Rat
  density : Option Rat
  threshold : Option Rat
  ratio : Option Rat
deriving DecidableEq

/-- `NormalizedPreset`. -/
structure NormalizedPreset where
  name : String
  synthesis_type : SynthesisType
  oscillator : OscillatorConfigN
  envelope : EnvelopeConfigN
  filter : FilterConfigN
  fx : List EffectConfigN
  sound_characteristics : SoundCharacteristics
  topological_metadata : TopologicalMetadata
  ai_control : AIControl
  role : Role
  metadata : List (String × PyVal)
  validation_issues : List String
deriving DecidableEq

namespace UnitNormalizer

/-!
`UnitNormalizer` (`normalizer.py`).  The two transcendental primitives the
source uses are taken as parameters: `powDetune c` models `2.0 ** (c /
1200.0)` and `log10f v` models `math.log10(v)`.  Every function threads the
mutable `issues` list explicitly and returns `Except` because several
branches of the source can raise uncaught exceptions.
-/

/-- `_normalize_time`: convert a time value to seconds.  Mirrors the source
branch order; the `ms`/`s` suffix branches call `float()` outside any
`try`, so a malformed number there raises (`Except.error`). -/
def normalize_time (time_value : PyVal) (param_name : String)
    (issues : List String) : Except String (Rat × List String) :=
  match time_value with
  | .num q => if q < 10 then .ok (q / 1000, issues) else .ok (q, issues)
  | .str s =>
    if strEndsWith s "ms" then
      match parsePyFloat (strDropRight s 2) with
      | Option.some q => .ok (q / 1000, issues)
      | Option.none => .error (valueErrorFloat (strDropRight s 2))
    else if strEndsWith s "s" then
      match parsePyFloat (strDropRight s 1) with
      | Option.some q => .ok (q, issues)
      | Option.none => .error (valueErrorFloat (strDropRight s 1))
    else if s.data.contains '-' then
      -- the whole range branch sits inside `try ... except ValueError`
      let parts := (splitOnChar '-' s.data).map String.mk
      if h : parts.length = 2 then
        match parsePyFloat (parts.get ⟨0, by omega⟩),
              parsePyFloat (parts.get ⟨1, by omega⟩) with
        | Option.some a, Option.some b => .ok ((a + b) / 2 / 1000, issues)
        | _, _ =>
          .ok (0, issues ++
            ["Invalid time range format for " ++ param_name ++ ": " ++ s])
      else
        match parsePyFloat s with
        | Option.some q => .ok (q / 1000, issues)
        | Option.none =>
          .ok (0, issues ++
            ["Invalid time range format for " ++ param_name ++ ": " ++ s])
    else
      match parsePyFloat s with
      | Option.some q => .ok (if q < 10 then q / 1000 else q, issues)
      | Option.none =>
        .ok (0, issues ++
          ["Invalid time format for " ++ param_name ++ ": " ++ s])
  | .list xs =>
    match xs with
    | a :: b :: _ => .ok ((a + b) / 2 / 1000, issues)
    | _ => .error indexErrorMsg
  | .noneV =>
    .ok (0, issues ++ ["Invalid time value for " ++ param_name ++ ": None"])

/-- `_normalize_frequency`: convert a frequency value to Hz.  Note the
source checks `endswith('Hz')` before `endswith('kHz')`; since every
string ending in `kHz` also ends in `Hz`, the `kHz` branch is dead code
and a value such as `"25kHz"` reaches `float("25k")`, which raises. -/
def normalize_frequency (freq_value : PyVal) (param_name : String)
    (issues : List String) : Except String (Rat × List String) :=
  match freq_value with
  | .num q => .ok (q, issues)
  | .str s =>
    if strEndsWith s "Hz" then
      match parsePyFloat (strDropRight s 2) with
      | Option.some q => .ok (q, issues)
      | Option.none => .error (valueErrorFloat (strDropRight s 2))
    else if strEndsWith s "kHz" then
      -- unreachable: kept to mirror the source
      match parsePyFloat (strDropRight s 3) with
      | Option.some q => .ok (q * 1000, issues)
      | Option.none => .error (valueErrorFloat (strDropRight s 3))
    else
      match parsePyFloat s with
      | Option.some q => .ok (q, issues)
      | Option.none =>
        .ok (1000, issues ++
          ["Invalid frequency format for " ++ param_name ++ ": " ++ s])
  | .list xs =>
    match xs with
    | a :: b :: _ => .ok ((a + b) / 2, issues)
    | _ => .error indexErrorMsg
  | .noneV =>
    .ok (1000, issues ++
      ["Invalid frequency value for " ++ param_name ++ ": None"])

/-- `_normalize_percentage`: convert to the [0,1] range (values above 1
are treated as percentages). -/
def normalize_percentage (value : PyVal) (param_name : String)
    (issues : List String) : Except String (Rat × List String) :=
  match value with
  | .num q => .ok (if q > 1 then q / 100 else q, issues)
  | .list xs =>
    match xs with
    | a :: b :: _ =>
      let avg := (a + b) / 2
      .ok (if avg > 1 then avg / 100 else avg, issues)
    | _ => .error indexErrorMsg
  | .str s =>
    .ok (1/2, issues ++
      ["Invalid percentage value for " ++ param_name ++ ": " ++ s])
  | .noneV =>
    .ok (1/2, issues ++
      ["Invalid percentage value for " ++ param_name ++ ": None"])

/-- `_normalize_detune`: cents to frequency ratio `2^(cents/1200)`,
modelled through the parameter `powDetune`. -/
def normalize_detune (powDetune : Rat → Rat) (detune_value : PyVal)
    (param_name : String) (issues : List String) :
    Except String (Rat × List String) :=
  match detune_value with
  | .num q => .ok (powDetune q, issues)
  | .list xs =>
    match xs with
    | a :: b :: _ => .ok (powDetune ((a + b) / 2), issues)
    | _ => .error indexErrorMsg
  | .str s =>
    .ok (1, issues ++
      ["Invalid detune value for " ++ param_name ++ ": " ++ s])
  | .noneV =>
    .ok (1, issues ++ ["Invalid detune value for " ++ param_name ++ ": None"])

/-- Conversion loop of `_normalize_mix_ratios`: each entry becomes a
float (`num` as-is, two-element ranges averaged, anything else records an
issue and contributes 1.0; a short list raises `IndexError`). -/
def mixRatioFloats (ratios : List PyVal) (param_name : String)
    (i : Nat) (issues : List String) :
    Except String (List Rat × List String) :=
  match ratios with
  | [] => .ok ([], issues)
  | r :: rest =>
    match r with
    | .num q => do
      let (qs, issues) ← mixRatioFloats rest param_name (i + 1) issues
      .ok (q :: qs, issues)
    | .list (a :: b :: _) => do
      let (qs, issues) ← mixRatioFloats rest param_name (i + 1) issues
      .ok ((a + b) / 2 :: qs, issues)
    | .list _ => .error indexErrorMsg
    | v => do
      let issue := "Invalid mix ratio at index " ++ toString i ++ " for " ++
        param_name ++ (match v with | .str s => ": " ++ s | _ => ": None")
      let (qs, issues) ← mixRatioFloats rest param_name (i + 1) (issues ++ [issue])
      .ok (1 :: qs, issues)

/-- `_normalize_mix_ratios`: renormalize to sum 1.0 when the sum is
positive, otherwise fall back to a uniform 1.0 for every entry. -/
def normalize_mix_ratios (ratios : List PyVal) (param_name : String)
    (issues : List String) : Except String (List Rat × List String) :=
  if ratios = [] then .ok ([1], issues)
  else do
    let (float_ratios, issues) ← mixRatioFloats ratios param_name 0 issues
    let total := float_ratios.sum
    if total > 0 then
      .ok (float_ratios.map (fun r => r / total), issues)
    else
      .ok (List.replicate float_ratios.length 1, issues)

/-- `_normalize_gain`: convert a gain multiplier to dB via
`20 * log10(value)` (through the `log10f` parameter), flooring at −60 dB
for non-positive values. -/
def normalize_gain (log10f : Rat → Rat) (gain_value : PyVal)
    (param_name : String) (issues : List String) :
    Except String (Rat × List String) :=
  match gain_value with
  | .num q => .ok (if q > 0 then 20 * log10f q else -60, issues)
  | .list xs =>
    match xs with
    | a :: b :: _ =>
      let avg := (a + b) / 2
      .ok (if avg > 0 then 20 * log10f avg else -60, issues)
    | _ => .error indexErrorMsg
  | .str s =>
    .ok (0, issues ++ ["Invalid gain value for " ++ param_name ++ ": " ++ s])
  | .noneV =>
    .ok (0, issues ++ ["Invalid gain value for " ++ param_name ++ ": None"])

/-- `_clamp_value`: clamp into `[min_val, max_val]`, recording an issue
when clamping occurred. -/
def clamp_value (value min_val max_val : Rat) (param_name : String)
    (issues : List String) : Rat × List String :=
  if value < min_val then
    (min_val, issues ++ ["Clamped " ++ param_name ++ " from " ++
      ratStr value ++ " to " ++ ratStr min_val])
  else if value > max_val then
    (max_val, issues ++ ["Clamped " ++ param_name ++ " from " ++
      ratStr value ++ " to " ++ ratStr max_val])
  else (value, issues)

/-- Whether `needle` occurs as a contiguous substring of `hay` (Python
`needle in hay`). -/
def listIsInfix : List Char → List Char → Bool
  | needle, [] => needle.isEmpty
  | needle, h :: t => needle.isPrefixOf (h :: t) || listIsInfix needle t

/-- `any(keyword in name_lower for keyword in kws)`. -/
def nameHas (name : String) (kws : List String) : Bool :=
  kws.any (fun k => listIsInfix k.data name.data)

/-- `_determine_role`: explicit role if present, else inferred from
name-substring keyword sets in source order, defaulting to pad. -/
def determine_role (preset : JsonPreset) : Role :=
  match preset.role with
  | Option.some r => r
  | Option.none =>
    let n := SemanticTokenizer.pyLower preset.name
    if nameHas n ["pad", "warm", "calm", "ambient"] then .pad
    else if nameHas n ["bass", "punchy", "driving"] then .bass
    else if nameHas n ["lead", "bright", "energetic", "supersaw"] then .lead
    else if nameHas n ["fx", "chaotic", "experimental"] then .fx
    else if nameHas n ["texture", "evolving", "tense"] then .texture
    else if nameHas n ["arp", "plucky", "rhythmic"] then .arp
    else if nameHas n ["drone", "airy", "ambient"] then .drone
    else if nameHas n ["rhythm", "crunchy", "aggressive"] then .rhythm
    else if nameHas n ["bell", "glassy", "clear"] then .bell
    else if nameHas n ["chord", "soft", "lush"] then .chord
    else if nameHas n ["pluck", "karplus"] then .pluck
    else .pad

/-- The `'env'` sub-dictionary of `_get_role_defaults` (`atk`, `rel`):
present for pad, bass and lead; the fx entry has no `'env'` key and the
remaining roles are absent from the table. -/
def role_default_env : Role → Option (String × String)
  | .pad => Option.some ("200-800ms", "600-3000ms")
  | .bass => Option.some ("5-40ms", "80-250ms")
  | .lead => Option.some ("5-120ms", "120-600ms")
  | _ => Option.none

/-- `_apply_role_defaults`: when attack/release are effectively zero
(< 0.001 s), pull the default from the per-role table through
`_normalize_time`.  Note every default in the table is a range string
ending in `ms` (for example `"200-800ms"`), so `_normalize_time` takes its
`ms` branch and `float("200-800")` raises an uncaught `ValueError`. -/
def apply_role_defaults (envc : EnvelopeConfigN) (role : Role)
    (issues : List String) : Except String (EnvelopeConfigN × List String) :=
  match role_default_env role with
  | Option.none => .ok (envc, issues)
  | Option.some (atk, rel) => do
    let (envc, issues) ←
      if envc.attack < 1/1000 then do
        let (a, issues) ← normalize_time (.str atk) "role_default.attack" issues
        pure ({ envc with attack := a }, issues)
      else pure (envc, issues)
    if envc.release < 1/1000 then do
      let (r, issues) ← normalize_time (.str rel) "role_default.release" issues
      pure ({ envc with release := r }, issues)
    else pure (envc, issues)

/-- Issue string recorded by `_validate_safety_constraints` for an
out-of-range filter cutoff. -/
def cutoff_issue (c : Rat) : String :=
  "Filter cutoff " ++ ratStr c ++ "Hz outside safe range [20, 20000]"

/-- Issue string recorded by `_validate_safety_constraints` for an
excessive filter resonance. -/
def resonance_issue (r : Rat) : String :=
  "Filter resonance " ++ ratStr r ++ " exceeds safe maximum 0.9"

/-- Per-effect feedback / gain ceiling checks of
`_validate_safety_constraints`. -/
def effect_issues (i : Nat) : List EffectConfigN → List String
  | [] => []
  | e :: rest =>
    (match e.feedback with
     | Option.some f =>
       if f > 85/100 then
         ["Effect " ++ toString i ++ " feedback " ++ ratStr f ++
          " exceeds safe maximum 0.85"]
       else []
     | Option.none => []) ++
    (match e.gain with
     | Option.some g =>
       if g > 12 then
         ["Effect " ++ toString i ++ " gain " ++ ratStr g ++
          "dB exceeds safe maximum 12dB"]
       else []
     | Option.none => []) ++
    effect_issues (i + 1) rest

/-- `_validate_safety_constraints`: re-check cutoff range, resonance
ceiling and per-effect ceilings, appending issues (values are only
reported here, never re-clamped).  The envelope argument of the source is
unused. -/
def validate_safety_constraints (filterc : FilterConfigN)
    (effects : List EffectConfigN) (issues : List String) : List String :=
  let issues :=
    if filterc.cutoff < 20 ∨ filterc.cutoff > 20000 then
      issues ++ [cutoff_issue filterc.cutoff]
    else issues
  let issues :=
    if filterc.resonance > 9/10 then issues ++ [resonance_issue filterc.resonance]
    else issues
  issues ++ effect_issues 0 effects

/-- `_normalize_envelope`. -/
def normalize_envelope (envelope : EnvelopeConfig) (issues : List String) :
    Except String (EnvelopeConfigN × List String) := do
  let (attack, issues) ← normalize_time envelope.attack "envelope.attack" issues
  let (decay, issues) ← normalize_time envelope.decay "envelope.decay" issues
  let (sustain, issues) ← normalize_percentage envelope.sustain "envelope.sustain" issues
  let (release, issues) ← normalize_time envelope.release "envelope.release" issues
  let (hold, issues) ←
    if pyTruthy envelope.hold then
      normalize_time envelope.hold "envelope.hold" issues
    else pure (0, issues)
  let (delay, issues) ←
    if pyTruthy envelope.delay then
      normalize_time envelope.delay "envelope.delay" issues
    else pure (0, issues)
  pure ({ type := envelope.type, attack, decay, sustain, release, hold,
          delay, curve := envelope.curve }, issues)

/-- `_normalize_filter`. -/
def normalize_filter (filter_config : FilterConfig) (issues : List String) :
    Except String (FilterConfigN × List String) := do
  let (cutoff, issues) ←
    normalize_frequency filter_config.cutoff "filter.cutoff" issues
  let (resonance, issues) ←
    normalize_percentage filter_config.resonance "filter.resonance" issues
  let (env_amount, issues) ←
    normalize_percentage filter_config.envelope_amount
      "filter.envelope_amount" issues
  pure ({ type := filter_config.type, cutoff, resonance,
          envelope_amount := env_amount, slope := filter_config.slope }, issues)

/-- `_normalize_oscillator`.  Clamping a non-numeric modulation index or
carrier ratio would compare a string against a float, a `TypeError`. -/
def normalize_oscillator (powDetune : Rat → Rat)
    (oscillator : OscillatorConfig) (issues : List String) :
    Except String (OscillatorConfigN × List String) := do
  let (detune, issues) ←
    normalize_detune powDetune oscillator.detune "oscillator.detune" issues
  let (mix_ratios, issues) ←
    normalize_mix_ratios oscillator.mix_ratios "oscillator.mix_ratios" issues
  let (mod_index, issues) ←
    match oscillator.modulation_index with
    | Option.none => pure (Option.none, issues)
    | Option.some (.num q) =>
      let (c, issues) := clamp_value q 0 10 "oscillator.modulation_index" issues
      pure (Option.some c, issues)
    | Option.some _ => Except.error typeErrorMsg
  let (carrier_ratio, issues) ←
    match oscillator.carrier_ratio with
    | Option.none => pure (Option.none, issues)
    | Option.some (.num q) =>
      let (c, issues) := clamp_value q (1/10) 10 "oscillator.carrier_ratio" issues
      pure (Option.some c, issues)
    | Option.some _ => Except.error typeErrorMsg
  pure ({ types := oscillator.types, mix_ratios, detune,
          modulation_index := mod_index, carrier_ratio,
          harmonics := oscillator.harmonics,
          morph_rate := oscillator.morph_rate,
          table_index := oscillator.table_index,
          grain_density := oscillator.grain_density,
          grain_size := oscillator.grain_size,
          pluck_position := oscillator.pluck_position,
          blend_mode := oscillator.blend_mode }, issues)

/-- One iteration of the `_normalize_effects` loop. -/
def normalize_effect (log10f : Rat → Rat) (i : Nat) (effect : EffectConfig)
    (issues : List String) : Except String (EffectConfigN × List String) := do
  let fi := "fx[" ++ toString i ++ "]"
  let (mix, issues) ← normalize_percentage effect.mix (fi ++ ".mix") issues
  let (feedback, issues) ←
    match effect.feedback with
    | Option.none => pure (Option.none, issues)
    | Option.some v => do
      let (p, issues) ← normalize_percentage v (fi ++ ".feedback") issues
      let (c, issues) := clamp_value p 0 (85/100) (fi ++ ".feedback") issues
      pure (Option.some c, issues)
  let (time, issues) ←
    match effect.time with
    | Option.none => pure (Option.none, issues)
    | Option.some v => do
      let (t, issues) ← normalize_time v (fi ++ ".time") issues
      pure (Option.some t, issues)
  let (gain, issues) ←
    match effect.gain with
    | Option.none => pure (Option.none, issues)
    | Option.some v => do
      let (g, issues) ← normalize_gain log10f v (fi ++ ".gain") issues
      let (c, issues) := clamp_value g (-60) 12 (fi ++ ".gain") issues
      pure (Option.some c, issues)
  let (decay, issues) ←
    match effect.decay with
    | Option.none => pure (Option.none, issues)
    | Option.some v => do
      let (t, issues) ← normalize_time v (fi ++ ".decay") issues
      pure (Option.some t, issues)
  let (wet, issues) ←
    match effect.wet with
    | Option.none => pure (Option.none, issues)
    | Option.some v => do
      let (p, issues) ← normalize_percentage v (fi ++ ".wet") issues
      pure (Option.some p, issues)
  let (rate, issues) ←
    match effect.rate with
    | Option.none => pure (Option.none, issues)
    | Option.some v => do
      let (f, issues) ← normalize_frequency v (fi ++ ".rate") issues
      pure (Option.some f, issues)
  let (depth, issues) ←
    match effect.depth with
    | Option.none => pure (Option.none, issues)
    | Option.some v => do
      let (p, issues) ← normalize_percentage v (fi ++ ".depth") issues
      pure (Option.some p, issues)
  let (frequency, issues) ←
    match effect.frequency with
    | Option.none => pure (Option.none, issues)
    | Option.some v => do
      let (f, issues) ← normalize_frequency v (fi ++ ".frequency") issues
      pure (Option.some f, issues)
  let (density, issues) ←
    match effect.density with
    | Option.none => pure (Option.none, issues)
    | Option.some v => do
      let (p, issues) ← normalize_percentage v (fi ++ ".density") issues
      pure (Option.some p, issues)
  let (threshold, issues) ←
    match effect.threshold with
    | Option.none => pure (Option.none, issues)
    | Option.some v => do
      let (g, issues) ← normalize_gain log10f v (fi ++ ".threshold") issues
      pure (Option.some g, issues)
  let (ratio, issues) ←
    match effect.ratio with
    | Option.none => pure (Option.none, issues)
    | Option.some v => do
      let q ← (match v with
        | .num q => Except.ok q
        | .list (a :: _) => Except.ok a
        | .list [] => Except.error indexErrorMsg
        | _ => Except.error typeErrorMsg)
      let (c, issues) := clamp_value q 1 20 (fi ++ ".ratio") issues
      pure (Option.some c, issues)
  -- `"amount"` is never written into `normalized_params`, so the
  -- normalized effect's `amount` is always `None`
  pure ({ type := effect.type, mix, feedback, time, gain,
          amount := Option.none, decay, wet, rate, depth, frequency,
          density, threshold, ratio }, issues)

/-- `_normalize_effects`: the enumerated loop over the effect list. -/
def normalize_effects (log10f : Rat → Rat) (effects : List EffectConfig)
    (i : Nat) (issues : List String) :
    Except String (List EffectConfigN × List String) :=
  match effects with
  | [] => .ok ([], issues)
  | e :: rest => do
    let (ne, issues) ← normalize_effect log10f i e issues
    let (nrest, issues) ← normalize_effects log10f rest (i + 1) issues
    .ok (ne :: nrest, issues)

/-- `UnitNormalizer.normalize`: the full normalization pipeline.  Returns
`Except.error` on the inputs where the Python source raises an uncaught
exception. -/
def normalize (powDetune log10f : Rat → Rat) (preset : JsonPreset) :
    Except String NormalizedPreset := do
  let issues : List String := []
  let (normalized_envelope, issues) ← normalize_envelope preset.envelope issues
  let (normalized_filter, issues) ← normalize_filter preset.filter issues
  let (normalized_oscillator, issues) ←
    normalize_oscillator powDetune preset.oscillator issues
  let (normalized_fx, issues) ← normalize_effects log10f preset.fx 0 issues
  let role := determine_role preset
  let (normalized_envelope, issues) ←
    apply_role_defaults normalized_envelope role issues
  let issues := validate_safety_constraints normalized_filter normalized_fx issues
  pure { name := preset.name,
         synthesis_type := preset.synthesis_type,
         oscillator := normalized_oscillator,
         envelope := normalized_envelope,
         filter := normalized_filter,
         fx := normalized_fx,
         sound_characteristics := preset.sound_characteristics,
         topological_metadata := preset.topological_metadata,
         ai_control := preset.ai_control,
         role := role,
         metadata := preset.metadata,
         validation_issues := issues }

end UnitNormalizer

/-! ## Concrete fixtures used by theorems and witnesses -/

/-- A plain sine oscillator configuration. -/
def simpleOsc : OscillatorConfig :=
  { types := [.sine], mix_ratios := [.num 1], detune := .num 0,
    modulation_index := Option.none, carrier_ratio := Option.none,
    harmonics := Option.none, morph_rate := Option.none,
    table_index := Option.none, grain_density := Option.none,
    grain_size := Option.none, pluck_position := Option.none,
    blend_mode := Option.none }

/-- An ADSR envelope with the given attack value. -/
def simpleEnv (attack : PyVal) : EnvelopeConfig :=
  { type := .adsr, attack, decay := .num 100, sustain := .num (7/10),
    release := .num 500, hold := .num 0, delay := .num 0, curve := .linear }

/-- A low-pass filter with the given cutoff value. -/
def simpleFilter (cutoff : PyVal) : FilterConfig :=
  { type := .low_pass, cutoff, resonance := .num 0,
    envelope_amount := .num 0, slope := "12dB/oct" }

/-- Neutral sound characteristics. -/
def simpleChars : SoundCharacteristics :=
  { timbral := "neutral", material := "synthetic", emotional := [],
    dynamic := "sustained" }

/-- Neutral topological metadata. -/
def simpleTopo : TopologicalMetadata :=
  { damping := "medium", spectral_complexity := "medium",
    manifold_position := "center" }

/-- Default `AIControl`. -/
def simpleAI : AIControl :=
  { enabled := true, modulation_depth := 1, jitter_amount := 1/10,
    morphing_rate := 1/2 }

/-- A complete raw preset around the given envelope and filter. -/
def mkPreset (name : String) (envelope : EnvelopeConfig)
    (filterc : FilterConfig) (fx : List EffectConfig) : JsonPreset :=
  { name, synthesis_type := .subtractive, oscillator := simpleOsc,
    envelope, filter := filterc, fx, sound_characteristics := simpleChars,
    topological_metadata := simpleTopo, ai_control := simpleAI,
    role := Option.some Role.pad, metadata := [] }

/-- A preset whose envelope attack is the malformed time string `"xms"`. -/
def c2preset : JsonPreset :=
  mkPreset "Warmish" (simpleEnv (.str "xms")) (simpleFilter (.num 1000)) []

/-- C2: the claim says `normalize` never raises — any out-of-range or
unparsable field is recovered locally and recorded as an issue.  The code
raises: a malformed time string such as `"xms"` reaches `float("x")` in
`_normalize_time`'s `ms`-suffix branch, which sits outside any
`try`/`except`, so the `ValueError` propagates to the caller (the same
happens for `"25kHz"` in `_normalize_frequency`).  The surrounding
branches do catch `ValueError` and record issues, so the spec states the
intended behaviour and the missing `try` is a slip. -/
theorem c2_normalize_raises :
    (∀ powDetune log10f : Rat → Rat,
      UnitNormalizer.normalize powDetune log10f c2preset =
        Except.error (valueErrorFloat "x")) ∧
    UnitNormalizer.normalize_frequency (.str "25kHz") "filter.cutoff" [] =
      Except.error (valueErrorFloat "25k") := by
  exact ⟨fun _ _ => rfl, rfl⟩

/-- `bind` on an `Except.ok` value. -/
theorem exceptBind_ok {α β : Type} (a : α) (f : α → Except String β) :
    (bind (Except.ok a) f : Except String β) = f a := rfl

/-- `bind` on an `Except.error` value. -/
theorem exceptBind_error {α β : Type} (e : String) (f : α → Except String β) :
    (bind (Except.error e) f : Except String β) = Except.error e := rfl

/-- `pure` into `Except`. -/
theorem exceptPure_eq_ok {α : Type} (a : α) :
    (pure a : Except String α) = Except.ok a := rfl

/-- C5 counterexample: the claim says the normalized mix-ratio list sums
to 1.0 for *every* non-empty numeric input, including zero-sum degenerate
inputs.  For the zero-sum input `[0.0, 0.0]` the code falls back to
uniform `1.0` per entry, and the returned list `[1.0, 1.0]` sums to 2. -/
theorem c5_counterexample :
    UnitNormalizer.normalize_mix_ratios [PyVal.num 0, PyVal.num 0]
      "oscillator.mix_ratios" [] = Except.ok ([1, 1], []) ∧
    ([(1 : Rat), 1].sum ≠ 1) := by
  constructor
  · norm_num [UnitNormalizer.normalize_mix_ratios,
      UnitNormalizer.mixRatioFloats, exceptBind_ok, List.replicate]
    simp
  · norm_num

/-- `mixRatioFloats` on an all-numeric list returns exactly those numbers
and records no issue. -/
theorem mixRatioFloats_num (qs : List Rat) (pname : String) (i : Nat)
    (issues : List String) :
    UnitNormalizer.mixRatioFloats (qs.map PyVal.num) pname i issues =
      Except.ok (qs, issues) := by
  induction qs generalizing i with
  | nil => rfl
  | cons a l ih =>
    simp [UnitNormalizer.mixRatioFloats, ih, exceptBind_ok]

/-- Sum of a list divided elementwise. -/
theorem sum_map_div (qs : List Rat) (t : Rat) :
    (qs.map (fun r => r / t)).sum = qs.sum / t := by
  induction qs with
  | nil => simp
  | cons a l ih => simp [ih, add_div]

/-- C5 amended: for every non-empty list of numeric mix ratios, when the
sum of the ratios is positive the returned list is the input renormalized
and sums exactly to 1; when the sum is zero or negative the code falls
back to a uniform `1.0` for every entry (so the result sums to the length
of the list, not to 1). -/
theorem c5_mix_ratio_normalization (qs : List Rat) (pname : String)
    (issues : List String) (hne : qs ≠ []) :
    (0 < qs.sum →
      UnitNormalizer.normalize_mix_ratios (qs.map PyVal.num) pname issues =
        Except.ok (qs.map (fun r => r / qs.sum), issues) ∧
      (qs.map (fun r => r / qs.sum)).sum = 1) ∧
    (qs.sum ≤ 0 →
      UnitNormalizer.normalize_mix_ratios (qs.map PyVal.num) pname issues =
        Except.ok (List.replicate qs.length 1, issues)) := by
  have hmapne : qs.map PyVal.num ≠ [] := by
    simpa using hne
  constructor
  · intro hpos
    constructor
    · simp [UnitNormalizer.normalize_mix_ratios, hmapne,
        mixRatioFloats_num, hpos, exceptBind_ok]
    · rw [sum_map_div]
      exact div_self (ne_of_gt hpos)
  · intro hle
    have hnpos : ¬ (0 : Rat) < qs.sum := not_lt.mpr hle
    simp [UnitNormalizer.normalize_mix_ratios, hmapne,
      mixRatioFloats_num, hnpos, exceptBind_ok]

/-- Witness for the amended C5 theorem at the concrete input `[1, 3]`. -/
theorem c5_mix_ratio_normalization_witness :
    UnitNormalizer.normalize_mix_ratios [PyVal.num 1, PyVal.num 3]
      "oscillator.mix_ratios" [] =
      Except.ok ([1/4, 3/4], []) ∧ ([(1 : Rat)/4, 3/4].sum = 1) := by
  have h := (c5_mix_ratio_normalization [1, 3] "oscillator.mix_ratios" []
    (by simp)).1 (by norm_num)
  constructor
  · have h1 := h.1
    norm_num at h1
    convert h1 using 4
  · norm_num

/-- The safety pass always leaves the cutoff in range or records the
cutoff issue. -/
theorem validate_cutoff_disj (fc : FilterConfigN) (fx : List EffectConfigN)
    (issues : List String) :
    (20 ≤ fc.cutoff ∧ fc.cutoff ≤ 20000) ∨
      UnitNormalizer.cutoff_issue fc.cutoff ∈
        UnitNormalizer.validate_safety_constraints fc fx issues := by
  by_cases hc : fc.cutoff < 20 ∨ fc.cutoff > 20000
  · right
    by_cases hr : fc.resonance > 9/10 <;>
      simp [UnitNormalizer.validate_safety_constraints, hc, hr]
  · left
    push_neg at hc
    exact ⟨hc.1, hc.2⟩

/-- The safety pass always leaves the resonance under the ceiling or
records the resonance issue. -/
theorem validate_resonance_disj (fc : FilterConfigN) (fx : List EffectConfigN)
    (issues : List String) :
    fc.resonance ≤ 9/10 ∨
      UnitNormalizer.resonance_issue fc.resonance ∈
        UnitNormalizer.validate_safety_constraints fc fx issues := by
  by_cases hr : fc.resonance > 9/10
  · right
    by_cases hc : fc.cutoff < 20 ∨ fc.cutoff > 20000 <;>
      simp [UnitNormalizer.validate_safety_constraints, hc, hr]
  · left
    exact le_of_not_lt hr

/-- C7: every successfully normalized preset either has its filter cutoff
inside [20, 20000] Hz or carries the validation issue naming the cutoff,
and either has resonance at most 0.9 or carries the resonance issue. -/
theorem c7_normalized_safety (powDetune log10f : Rat → Rat)
    (p : JsonPreset) (np : NormalizedPreset)
    (h : UnitNormalizer.normalize powDetune log10f p = Except.ok np) :
    ((20 ≤ np.filter.cutoff ∧ np.filter.cutoff ≤ 20000) ∨
      UnitNormalizer.cutoff_issue np.filter.cutoff ∈ np.validation_issues) ∧
    (np.filter.resonance ≤ 9/10 ∨
      UnitNormalizer.resonance_issue np.filter.resonance ∈
        np.validation_issues) := by
  simp only [UnitNormalizer.normalize] at h
  cases h1 : UnitNormalizer.normalize_envelope p.envelope [] with
  | error e => rw [h1] at h; simp [exceptBind_error] at h
  | ok v1 =>
  obtain ⟨nenv, is1⟩ := v1
  rw [h1] at h
  simp only [exceptBind_ok] at h
  cases h2 : UnitNormalizer.normalize_filter p.filter is1 with
  | error e => rw [h2] at h; simp [exceptBind_error] at h
  | ok v2 =>
  obtain ⟨nfil, is2⟩ := v2
  rw [h2] at h
  simp only [exceptBind_ok] at h
  cases h3 : UnitNormalizer.normalize_oscillator powDetune p.oscillator is2 with
  | error e => rw [h3] at h; simp [exceptBind_error] at h
  | ok v3 =>
  obtain ⟨nosc, is3⟩ := v3
  rw [h3] at h
  simp only [exceptBind_ok] at h
  cases h4 : UnitNormalizer.normalize_effects log10f p.fx 0 is3 with
  | error e => rw [h4] at h; simp [exceptBind_error] at h
  | ok v4 =>
  obtain ⟨nfx, is4⟩ := v4
  rw [h4] at h
  simp only [exceptBind_ok] at h
  cases h5 : UnitNormalizer.apply_role_defaults nenv
      (UnitNormalizer.determine_role p) is4 with
  | error e => rw [h5] at h; simp [exceptBind_error] at h
  | ok v5 =>
  obtain ⟨nenv2, is5⟩ := v5
  rw [h5] at h
  simp only [exceptBind_ok, exceptPure_eq_ok, Except.ok.injEq] at h
  subst h
  exact ⟨validate_cutoff_disj nfil nfx is5, validate_resonance_disj nfil nfx is5⟩

/-- A benign concrete preset on which normalization succeeds. -/
def c7preset : JsonPreset :=
  mkPreset "Neutral" (simpleEnv (.num 50)) (simpleFilter (.num 1000)) []

/-- The normalization result of `c7preset`. -/
def c7np : NormalizedPreset :=
  { name := "Neutral", synthesis_type := .subtractive,
    oscillator :=
      { types := [.sine], mix_ratios := [1], detune := 1,
        modulation_index := Option.none, carrier_ratio := Option.none,
        harmonics := Option.none, morph_rate := Option.none,
        table_index := Option.none, grain_density := Option.none,
        grain_size := Option.none, pluck_position := Option.none,
        blend_mode := Option.none },
    envelope :=
      { type := .adsr, attack := 50, decay := 100, sustain := 7/10,
        release := 500, hold := 0, delay := 0, curve := .linear },
    filter :=
      { type := .low_pass, cutoff := 1000, resonance := 0,
        envelope_amount := 0, slope := "12dB/oct" },
    fx := [], sound_characteristics := simpleChars,
    topological_metadata := simpleTopo, ai_control := simpleAI,
    role := .pad, metadata := [], validation_issues := [] }

/-- Witness for C7 at a concrete preset. -/
theorem c7_normalized_safety_witness :
    UnitNormalizer.normalize (fun _ => 1) (fun _ => 0) c7preset =
      Except.ok c7np ∧
    (((20 ≤ c7np.filter.cutoff ∧ c7np.filter.cutoff ≤ 20000) ∨
       UnitNormalizer.cutoff_issue c7np.filter.cutoff ∈
         c7np.validation_issues) ∧
     (c7np.filter.resonance ≤ 9/10 ∨
       UnitNormalizer.resonance_issue c7np.filter.resonance ∈
         c7np.validation_issues)) := by
  have heval : UnitNormalizer.normalize (fun _ => 1) (fun _ => 0) c7preset =
      Except.ok c7np := by
    norm_num [UnitNormalizer.normalize, UnitNormalizer.normalize_envelope,
      UnitNormalizer.normalize_time, UnitNormalizer.normalize_percentage,
      UnitNormalizer.normalize_filter, UnitNormalizer.normalize_frequency,
      UnitNormalizer.normalize_oscillator, UnitNormalizer.normalize_detune,
      UnitNormalizer.normalize_mix_ratios, UnitNormalizer.mixRatioFloats,
      UnitNormalizer.normalize_effects, UnitNormalizer.determine_role,
      UnitNormalizer.apply_role_defaults, UnitNormalizer.role_default_env,
      UnitNormalizer.validate_safety_constraints, UnitNormalizer.effect_issues,
      c7preset, c7np, mkPreset, simpleEnv, simpleFilter, simpleOsc,
      simpleChars, simpleTopo, simpleAI, exceptBind_ok, exceptPure_eq_ok,
      pyTruthy]
  exact ⟨heval, c7_normalized_safety _ _ _ _ heval⟩

/-- C3 counterexample: the claim says normalization resolves a cutoff of
`"25kHz"` to 25000.0 Hz.  In fact `_normalize_frequency` checks the
`"Hz"` suffix first, so `"25kHz"` reaches `float("25k")`, which raises an
uncaught `ValueError`; no value (and no clamp) is ever produced. -/
theorem c3_counterexample :
    UnitNormalizer.normalize_frequency (.str "25kHz") "filter.cutoff" [] =
      Except.error (valueErrorFloat "25k") := rfl

namespace DecisionHeads

/-!
`decision_heads.py`.  numpy's global PRNG is modelled as an explicit state
`RngState = (seed, counter)`: `np.random.seed(s)` replaces the state by
`(s, 0)` and each draw applies an uninterpreted sample function to the
current `(seed, counter)` and advances the counter.  The per-process
`hash` of the query vector's bytes (and of the `(bytes, target)` tuple) is
likewise an uninterpreted parameter, so all theorems hold for every
possible hash and every possible distribution of the draws.
-/

/-- `Context`: query vector, role, tempo, key and optional extras. -/
structure Context where
  query_vector : List Rat
  role : Role
  tempo : Rat
  key : String
  entry_vector : Option (List Rat) := Option.none
  preset_metadata : Option (List (String × PyVal)) := Option.none
deriving DecidableEq

/-- `ValueDecision`. -/
structure ValueDecision where
  parameter_name : String
  mu : Rat
  sigma : Rat
  min_val : Rat
  max_val : Rat
  final_value : Rat
deriving DecidableEq

/-- `RoutingDecision`. -/
structure RoutingDecision where
  source : String
  target : String
  amount : Rat
  enabled : Bool
deriving DecidableEq

/-- `Decisions`. -/
structure Decisions where
  value_decisions : List ValueDecision
  routing_decisions : List RoutingDecision
  jitter_seed : Nat
deriving DecidableEq

/-- The state of numpy's global generator: current seed and how many
draws have happened since seeding. -/
structure RngState where
  seed : Nat
  counter : Nat
deriving DecidableEq

/-- `np.random.seed(s)`. -/
def np_seed (s : Nat) : RngState := ⟨s, 0⟩

/-- `ValueHead` (name, parameter, bounds, per-role weights). -/
structure ValueHead where
  parameter_name : String
  min_val : Rat
  max_val : Rat
  role_weights : List (Role × Rat)
deriving DecidableEq

/-- `RoutingHead` (modulation source and candidate targets). -/
structure RoutingHead where
  source : String
  available_targets : List String
deriving DecidableEq

/-- `self.role_weights.get(context.role, 1.0)`. -/
def roleWeightOf (ws : List (Role × Rat)) (r : Role) : Rat :=
  (ws.lookup r).getD 1

/-- `np.mean` (numpy returns NaN on an empty vector; every comparison
against NaN is false, which the total model reflects by the value 0 —
both satisfy every bound check made of it). -/
def pyMean (qv : List Rat) : Rat := qv.sum / qv.length

/-- `ValueHead._extract_base_value`: weighted combination of the first
four dimensions, or the plain mean when the vector is shorter. -/
def extract_base_value (qv : List Rat) : Rat :=
  if qv.length ≥ 4 then
    ((qv.take 4).zip [(4 : Rat)/10, 3/10, 2/10, 1/10]).foldl
      (fun acc ab => acc + ab.1 * ab.2) 0
  else pyMean qv

/-- `ValueHead._get_jitter_amount`: the per-role jitter table. -/
def get_jitter_amount (role : Role) : Rat :=
  match role with
  | .pad => 5/100 | .bass => 3/100 | .lead => 8/100 | .fx => 15/100
  | .texture => 10/100 | .arp => 12/100 | .drone => 2/100
  | .rhythm => 8/100 | .bell => 6/100 | .chord => 5/100 | .pluck => 7/100

section Engine

variable (hashBytes : List Rat → Nat)
variable (hashBytesTarget : List Rat → String → Nat)
variable (normalSample : Nat → Nat → Rat → Rat)
variable (uniformSample : Nat → Nat → Rat → Rat → Rat)
variable (vecNorm : List Rat → Rat)

/-- `np.random.normal(0, sigma)` against the modelled global state. -/
def np_normal (st : RngState) (sigma : Rat) : Rat × RngState :=
  (normalSample st.seed st.counter sigma, ⟨st.seed, st.counter + 1⟩)

/-- `np.random.uniform(lo, hi)` against the modelled global state. -/
def np_uniform (st : RngState) (lo hi : Rat) : Rat × RngState :=
  (uniformSample st.seed st.counter lo hi, ⟨st.seed, st.counter + 1⟩)

/-- `ValueHead.infer`: deterministic value decision with seeded jitter.
The ambient generator state is overwritten by `np.random.seed` before the
draw, which is what makes the head reproducible. -/
def ValueHead.infer (h : ValueHead) (context : Context) (st0 : RngState) :
    List ValueDecision × RngState :=
  let base_mu := extract_base_value context.query_vector
  let role_weight := roleWeightOf h.role_weights context.role
  let mu := npClip (base_mu * role_weight) 0 1
  let sigma := get_jitter_amount context.role
  let jitter_seed := hashBytes context.query_vector % 2 ^ 32
  let st := np_seed jitter_seed
  let (jitter, st) := np_normal normalSample st sigma
  let final_mu := npClip (mu + jitter) 0 1
  let final_value := h.min_val + final_mu * (h.max_val - h.min_val)
  let _ := st0
  ([{ parameter_name := h.parameter_name, mu, sigma,
      min_val := h.min_val, max_val := h.max_val, final_value }], st)

/-- `RoutingHead._calculate_connection_probability`. -/
def calculate_connection_probability (context : Context) (target : String) :
    Rat :=
  let base_prob : Rat := 3/10
  let role_adj : List (String × Rat) :=
    match context.role with
    | .pad => [("filter_cutoff", 8/10), ("filter_resonance", 6/10),
               ("oscillator_detune", 4/10), ("reverb_amount", 7/10)]
    | .bass => [("filter_cutoff", 9/10), ("filter_resonance", 7/10),
                ("oscillator_detune", 2/10), ("reverb_amount", 3/10)]
    | .lead => [("filter_cutoff", 8/10), ("filter_resonance", 6/10),
                ("oscillator_detune", 7/10), ("reverb_amount", 5/10)]
    | .fx => [("filter_cutoff", 9/10), ("filter_resonance", 8/10),
              ("oscillator_detune", 8/10), ("reverb_amount", 6/10)]
    | _ => []
  let target_adj := (role_adj.lookup target).getD 1
  let query_activity := vecNorm context.query_vector
  let activity_factor := 1/2 + 1/2 * query_activity
  npClip (base_prob * target_adj * activity_factor) 0 1

/-- `RoutingHead._calculate_modulation_amount`. -/
def calculate_modulation_amount (context : Context) (probability : Rat) :
    Rat :=
  let role_scaling : Rat :=
    match context.role with
    | .pad => 3/10 | .bass => 2/10 | .lead => 5/10 | .fx => 8/10
    | .texture => 6/10 | .arp => 7/10 | .drone => 1/10 | .rhythm => 6/10
    | .bell => 4/10 | .chord => 3/10 | .pluck => 5/10
  npClip (probability * role_scaling) 0 1

/-- The per-target body of the `RoutingHead.infer` loop. -/
def routingStep (source : String) (context : Context) (target : String) :
    Option RoutingDecision :=
  let connection_prob :=
    calculate_connection_probability vecNorm context target
  let jitter_seed := hashBytesTarget context.query_vector target % 2 ^ 32
  let st := np_seed jitter_seed
  let (random_factor, _st) := np_uniform uniformSample st (8/10) (12/10)
  let final_prob := npClip (connection_prob * random_factor) 0 1
  let enabled := final_prob > 1/2
  if enabled then
    Option.some
      { source := source, target := target,
        amount := calculate_modulation_amount context final_prob,
        enabled := true }
  else Option.none

/-- `RoutingHead.infer`: one seeded decision per candidate target; only
enabled connections are collected.  (The generator state after the loop is
the state left by the last target's reseed-and-draw; since every draw is
preceded by a reseed this does not affect any output.) -/
def RoutingHead.infer (h : RoutingHead) (context : Context)
    (st0 : RngState) : List RoutingDecision × RngState :=
  let decisions := h.available_targets.filterMap
    (routingStep hashBytesTarget uniformSample vecNorm h.source context)
  let stq :=
    match h.available_targets.getLast? with
    | Option.none => st0
    | Option.some t =>
      ⟨hashBytesTarget context.query_vector t % 2 ^ 32, 1⟩
  (decisions, stq)

/-- The concrete value heads installed by `DecisionEngine._setup_heads`. -/
def value_heads : List ValueHead :=
  [{ parameter_name := "filter_cutoff", min_val := 20, max_val := 20000,
     role_weights := [(.pad, 6/10), (.bass, 3/10), (.lead, 8/10), (.fx, 1)] },
   { parameter_name := "filter_resonance", min_val := 0, max_val := 9/10,
     role_weights := [(.pad, 3/10), (.bass, 6/10), (.lead, 5/10), (.fx, 8/10)] },
   { parameter_name := "oscillator_detune", min_val := 0, max_val := 1/10,
     role_weights := [(.pad, 4/10), (.bass, 1/10), (.lead, 7/10), (.fx, 9/10)] },
   { parameter_name := "reverb_amount", min_val := 0, max_val := 1,
     role_weights := [(.pad, 8/10), (.bass, 2/10), (.lead, 5/10), (.fx, 7/10)] },
   { parameter_name := "delay_amount", min_val := 0, max_val := 1,
     role_weights := [(.pad, 4/10), (.bass, 1/10), (.lead, 6/10), (.fx, 8/10)] },
   { parameter_name := "distortion_amount", min_val := 0, max_val := 1,
     role_weights := [(.pad, 1/10), (.bass, 3/10), (.lead, 5/10), (.fx, 8/10)] },
   { parameter_name := "stereo_width", min_val := 0, max_val := 1,
     role_weights := [(.pad, 1), (.bass, 0), (.lead, 5/10), (.fx, 1)] },
   { parameter_name := "lfo_rate", min_val := 1/10, max_val := 10,
     role_weights := [(.pad, 5/10), (.bass, 3/10), (.lead, 7/10), (.fx, 1)] }]

/-- The candidate routing targets of `DecisionEngine._setup_heads`. -/
def available_targets : List String :=
  ["filter_cutoff", "filter_resonance", "oscillator_detune",
   "reverb_amount", "delay_amount", "distortion_amount",
   "stereo_width", "lfo_rate"]

/-- The concrete routing heads installed by `DecisionEngine._setup_heads`. -/
def routing_heads : List RoutingHead :=
  [{ source := "mod_lfo", available_targets },
   { source := "mod_env", available_targets },
   { source := "macro_motion", available_targets }]

/-- `DecisionEngine.infer_decisions`: seed from the query-vector hash,
then run every value head and every routing head in order, threading the
modelled generator state. -/
def infer_decisions (context : Context) (_st0 : RngState) :
    Decisions × RngState :=
  let jitter_seed := hashBytes context.query_vector % 2 ^ 32
  let st := np_seed jitter_seed
  let (value_decisions, st) := value_heads.foldl
    (fun (acc : List ValueDecision × RngState) h =>
      let (ds, st) := ValueHead.infer hashBytes normalSample h context acc.2
      (acc.1 ++ ds, st))
    ([], st)
  let (routing_decisions, st) := routing_heads.foldl
    (fun (acc : List RoutingDecision × RngState) h =>
      let (ds, st) :=
        RoutingHead.infer hashBytesTarget uniformSample vecNorm h context acc.2
      (acc.1 ++ ds, st))
    ([], st)
  ({ value_decisions, routing_decisions, jitter_seed }, st)

end Engine

/-- `DecisionEngine.validate_decisions`: report any resolved value outside
its declared bounds and any routing amount outside [0,1]. -/
def validate_decisions (decisions : Decisions) : List String :=
  let issues := decisions.value_decisions.foldl
    (fun acc d =>
      if d.final_value < d.min_val ∨ d.final_value > d.max_val then
        acc ++ ["Parameter " ++ d.parameter_name ++ " value " ++
          ratStr d.final_value ++ " outside range [" ++ ratStr d.min_val ++
          ", " ++ ratStr d.max_val ++ "]"]
      else acc) []
  decisions.routing_decisions.foldl
    (fun acc d =>
      if d.amount < 0 ∨ d.amount > 1 then
        acc ++ ["Routing " ++ d.source ++ "->" ++ d.target ++ " amount " ++
          ratStr d.amount ++ " outside range [0.0, 1.0]"]
      else acc) issues

/-- The `applied_changes` record returned by `apply_decisions`: the value
changes plus the routing map keyed by source. -/
structure AppliedChanges where
  values : List (String × Rat)
  routing : List (String × List (String × Rat))
deriving DecidableEq

/-- Appending into the `routing_info` dictionary bucket of a source. -/
def bucketAdd (m : List (String × List (String × Rat))) (src : String)
    (entry : String × Rat) : List (String × List (String × Rat)) :=
  match m with
  | [] => [(src, [entry])]
  | (k, v) :: rest =>
    if k = src then (k, v ++ [entry]) :: rest
    else (k, v) :: bucketAdd rest src entry

/-- The per-decision preset update of the `apply_decisions` value loop:
only `filter_cutoff`, `filter_resonance` and `oscillator_detune` are ever
written back; every other parameter name is ignored. -/
def applyValueStep (acc : NormalizedPreset × List (String × Rat))
    (d : ValueDecision) : NormalizedPreset × List (String × Rat) :=
  let (preset, changes) := acc
  if d.parameter_name = "filter_cutoff" then
    ({ preset with filter := { preset.filter with cutoff := d.final_value } },
     changes ++ [("filter_cutoff", d.final_value)])
  else if d.parameter_name = "filter_resonance" then
    ({ preset with filter := { preset.filter with resonance := d.final_value } },
     changes ++ [("filter_resonance", d.final_value)])
  else if d.parameter_name = "oscillator_detune" then
    ({ preset with
        oscillator := { preset.oscillator with detune := d.final_value } },
     changes ++ [("oscillator_detune", d.final_value)])
  else acc

/-- `DecisionEngine.apply_decisions`: write the resolved values onto the
preset's mutable fields and bucket the enabled routing decisions by
source. -/
def apply_decisions (preset : NormalizedPreset) (decisions : Decisions) :
    NormalizedPreset × AppliedChanges :=
  let (preset, changes) :=
    decisions.value_decisions.foldl applyValueStep (preset, [])
  let routing_info := decisions.routing_decisions.foldl
    (fun m d => if d.enabled then bucketAdd m d.source (d.target, d.amount)
      else m) []
  (preset, { values := changes, routing := routing_info })

end DecisionHeads

/-- C6: determinism of the decision engine.  Given the same context (query
vector, role, tempo, key — the query vector being a function of the query
text), two calls to `infer_decisions` made with *different* ambient
generator states produce identical `Decisions`: every draw is preceded by
`np.random.seed` with a seed derived from the context content alone, so
the ambient state never influences any jitter draw or routing decision.
This holds for every possible hash function and every possible behaviour
of the seeded normal/uniform samplers, hence in particular for numpy's. -/
theorem c6_infer_decisions_deterministic
    (hashBytes : List Rat → Nat) (hashBytesTarget : List Rat → String → Nat)
    (normalSample : Nat → Nat → Rat → Rat)
    (uniformSample : Nat → Nat → Rat → Rat → Rat)
    (vecNorm : List Rat → Rat) (context : DecisionHeads.Context)
    (s1 s2 : DecisionHeads.RngState) :
    (DecisionHeads.infer_decisions hashBytes hashBytesTarget normalSample
      uniformSample vecNorm context s1).1 =
    (DecisionHeads.infer_decisions hashBytes hashBytesTarget normalSample
      uniformSample vecNorm context s2).1 := rfl

/-- All fields of a `NormalizedPreset` other than the filter cutoff, the
filter resonance and the oscillator detune agree between `p` and `q`. -/
def FramePreserved (p q : NormalizedPreset) : Prop :=
  q.name = p.name ∧ q.synthesis_type = p.synthesis_type ∧
  q.envelope = p.envelope ∧ q.fx = p.fx ∧
  q.sound_characteristics = p.sound_characteristics ∧
  q.topological_metadata = p.topological_metadata ∧
  q.ai_control = p.ai_control ∧ q.role = p.role ∧
  q.metadata = p.metadata ∧ q.validation_issues = p.validation_issues ∧
  q.filter.type = p.filter.type ∧
  q.filter.envelope_amount = p.filter.envelope_amount ∧
  q.filter.slope = p.filter.slope ∧
  q.oscillator.types = p.oscillator.types ∧
  q.oscillator.mix_ratios = p.oscillator.mix_ratios ∧
  q.oscillator.modulation_index = p.oscillator.modulation_index ∧
  q.oscillator.carrier_ratio = p.oscillator.carrier_ratio ∧
  q.oscillator.harmonics = p.oscillator.harmonics ∧
  q.oscillator.morph_rate = p.oscillator.morph_rate ∧
  q.oscillator.table_index = p.oscillator.table_index ∧
  q.oscillator.grain_density = p.oscillator.grain_density ∧
  q.oscillator.grain_size = p.oscillator.grain_size ∧
  q.oscillator.pluck_position = p.oscillator.pluck_position ∧
  q.oscillator.blend_mode = p.oscillator.blend_mode

/-- `FramePreserved` is reflexive. -/
theorem framePreserved_refl (p : NormalizedPreset) : FramePreserved p p := by
  unfold FramePreserved
  simp

/-- `FramePreserved` is transitive. -/
theorem framePreserved_trans {p q r : NormalizedPreset}
    (h1 : FramePreserved p q) (h2 : FramePreserved q r) :
    FramePreserved p r := by
  unfold FramePreserved at h1 h2 ⊢
  obtain ⟨a1, a2, a3, a4, a5, a6, a7, a8, a9, a10, a11, a12, a13, a14,
    a15, a16, a17, a18, a19, a20, a21, a22, a23, a24⟩ := h1
  obtain ⟨b1, b2, b3, b4, b5, b6, b7, b8, b9, b10, b11, b12, b13, b14,
    b15, b16, b17, b18, b19, b20, b21, b22, b23, b24⟩ := h2
  exact ⟨b1.trans a1, b2.trans a2, b3.trans a3, b4.trans a4, b5.trans a5,
    b6.trans a6, b7.trans a7, b8.trans a8, b9.trans a9, b10.trans a10,
    b11.trans a11, b12.trans a12, b13.trans a13, b14.trans a14,
    b15.trans a15, b16.trans a16, b17.trans a17, b18.trans a18,
    b19.trans a19, b20.trans a20, b21.trans a21, b22.trans a22,
    b23.trans a23, b24.trans a24⟩

/-- A single `apply_decisions` value step only writes the filter cutoff,
the filter resonance or the oscillator detune. -/
theorem applyValueStep_frame (acc : NormalizedPreset × List (String × Rat))
    (d : DecisionHeads.ValueDecision) :
    FramePreserved acc.1 (DecisionHeads.applyValueStep acc d).1 := by
  obtain ⟨p, changes⟩ := acc
  unfold DecisionHeads.applyValueStep
  split_ifs <;> simp [FramePreserved]

/-- The whole value-decision loop of `apply_decisions` preserves the
frame. -/
theorem applyValueFold_frame (l : List DecisionHeads.ValueDecision)
    (acc : NormalizedPreset × List (String × Rat)) :
    FramePreserved acc.1 (l.foldl DecisionHeads.applyValueStep acc).1 := by
  induction l generalizing acc with
  | nil => exact framePreserved_refl acc.1
  | cons d rest ih =>
    exact framePreserved_trans (applyValueStep_frame acc d)
      (ih (DecisionHeads.applyValueStep acc d))

/-- C10: `apply_decisions` writes at most the preset's filter cutoff,
filter resonance and oscillator detune; every other field of the preset
(envelope, effects, name, role, synthesis type, sound characteristics,
validation issues, the remaining filter and oscillator fields) is
unchanged, and in particular value decisions for `reverb_amount`,
`delay_amount`, `distortion_amount`, `stereo_width` and `lfo_rate` are
never written onto the preset. -/
theorem c10_apply_decisions_frame (p : NormalizedPreset)
    (d : DecisionHeads.Decisions) :
    FramePreserved p (DecisionHeads.apply_decisions p d).1 := by
  unfold DecisionHeads.apply_decisions
  exact applyValueFold_frame d.value_decisions (p, [])

/-- `np.clip` lands in `[lo, hi]` whenever `lo ≤ hi`. -/
theorem npClip_mem (x lo hi : Rat) (h : lo ≤ hi) :
    lo ≤ npClip x lo hi ∧ npClip x lo hi ≤ hi := by
  unfold npClip
  split_ifs with h1 h2
  · exact ⟨le_refl lo, h⟩
  · exact ⟨h, le_refl hi⟩
  · exact ⟨le_of_not_lt h1, le_of_not_lt h2⟩

/-- Every decision a value head emits stays inside the head's declared
bounds, provided the declared bounds are ordered. -/
theorem valueHead_infer_bounds (hashBytes : List Rat → Nat)
    (normalSample : Nat → Nat → Rat → Rat) (h : DecisionHeads.ValueHead)
    (hmm : h.min_val ≤ h.max_val) (context : DecisionHeads.Context)
    (st : DecisionHeads.RngState) (d : DecisionHeads.ValueDecision)
    (hd : d ∈ (DecisionHeads.ValueHead.infer hashBytes normalSample h
      context st).1) :
    ¬ (d.final_value < d.min_val ∨ d.final_value > d.max_val) := by
  unfold DecisionHeads.ValueHead.infer at hd
  simp only [List.mem_singleton] at hd
  subst hd
  simp only [not_or, not_lt]
  have hf := npClip_mem
    (npClip (DecisionHeads.extract_base_value context.query_vector *
      DecisionHeads.roleWeightOf h.role_weights context.role) 0 1 +
      (DecisionHeads.np_normal normalSample
        (DecisionHeads.np_seed (hashBytes context.query_vector % 2 ^ 32))
        (DecisionHeads.get_jitter_amount context.role)).1)
    0 1 (by norm_num)
  constructor
  · nlinarith [hf.1, hf.2]
  · nlinarith [hf.1, hf.2]

/-- Membership in the value-decision accumulator of the engine's head
loop: every collected decision comes from the start value or from one of
the heads. -/
theorem valueFold_mem (hashBytes : List Rat → Nat)
    (normalSample : Nat → Nat → Rat → Rat)
    (context : DecisionHeads.Context) (hds : List DecisionHeads.ValueHead)
    (acc : List DecisionHeads.ValueDecision × DecisionHeads.RngState)
    (d : DecisionHeads.ValueDecision)
    (hd : d ∈ (hds.foldl
      (fun (acc : List DecisionHeads.ValueDecision × DecisionHeads.RngState) h =>
        let (ds, st) := DecisionHeads.ValueHead.infer hashBytes normalSample
          h context acc.2
        (acc.1 ++ ds, st)) acc).1) :
    d ∈ acc.1 ∨ ∃ h ∈ hds, ∃ st, d ∈ (DecisionHeads.ValueHead.infer
      hashBytes normalSample h context st).1 := by
  induction hds generalizing acc with
  | nil => exact Or.inl hd
  | cons h rest ih =>
    rcases ih _ hd with hmem | ⟨h2, hh2, st, hmem⟩
    · simp only [List.mem_append] at hmem
      rcases hmem with hmem | hmem
      · exact Or.inl hmem
      · exact Or.inr ⟨h, List.mem_cons_self h rest, acc.2, hmem⟩
    · exact Or.inr ⟨h2, List.mem_cons_of_mem h hh2, st, hmem⟩

/-- Every routing decision a routing head emits has its amount inside
[0, 1]. -/
theorem routingHead_infer_amount (hashBytesTarget : List Rat → String → Nat)
    (uniformSample : Nat → Nat → Rat → Rat → Rat) (vecNorm : List Rat → Rat)
    (h : DecisionHeads.RoutingHead) (context : DecisionHeads.Context)
    (st : DecisionHeads.RngState) (d : DecisionHeads.RoutingDecision)
    (hd : d ∈ (DecisionHeads.RoutingHead.infer hashBytesTarget uniformSample
      vecNorm h context st).1) :
    ¬ (d.amount < 0 ∨ d.amount > 1) := by
  unfold DecisionHeads.RoutingHead.infer at hd
  simp only [List.mem_filterMap] at hd
  obtain ⟨t, _, hstep⟩ := hd
  unfold DecisionHeads.routingStep at hstep
  simp only at hstep
  split_ifs at hstep
  cases hstep
  simp only [not_or, not_lt]
  unfold DecisionHeads.calculate_modulation_amount
  rcases context.role <;>
    exact (npClip_mem _ 0 1 (by norm_num))

/-- Membership in the routing-decision accumulator of the engine's head
loop. -/
theorem routingFold_mem (hashBytesTarget : List Rat → String → Nat)
    (uniformSample : Nat → Nat → Rat → Rat → Rat) (vecNorm : List Rat → Rat)
    (context : DecisionHeads.Context)
    (hds : List DecisionHeads.RoutingHead)
    (acc : List DecisionHeads.RoutingDecision × DecisionHeads.RngState)
    (d : DecisionHeads.RoutingDecision)
    (hd : d ∈ (hds.foldl
      (fun (acc : List DecisionHeads.RoutingDecision × DecisionHeads.RngState) h =>
        let (ds, st) := DecisionHeads.RoutingHead.infer hashBytesTarget
          uniformSample vecNorm h context acc.2
        (acc.1 ++ ds, st)) acc).1) :
    d ∈ acc.1 ∨ ∃ h ∈ hds, ∃ st, d ∈ (DecisionHeads.RoutingHead.infer
      hashBytesTarget uniformSample vecNorm h context st).1 := by
  induction hds generalizing acc with
  | nil => exact Or.inl hd
  | cons h rest ih =>
    rcases ih _ hd with hmem | ⟨h2, hh2, st, hmem⟩
    · simp only [List.mem_append] at hmem
      rcases hmem with hmem | hmem
      · exact Or.inl hmem
      · exact Or.inr ⟨h, List.mem_cons_self h rest, acc.2, hmem⟩
    · exact Or.inr ⟨h2, List.mem_cons_of_mem h hh2, st, hmem⟩

/-- The value fold of `validate_decisions` adds nothing when every
decision is within bounds. -/
theorem validate_value_fold_nil (l : List DecisionHeads.ValueDecision)
    (acc : List String)
    (h : ∀ d ∈ l, ¬ (d.final_value < d.min_val ∨ d.final_value > d.max_val)) :
    l.foldl
      (fun acc d =>
        if d.final_value < d.min_val ∨ d.final_value > d.max_val then
          acc ++ ["Parameter " ++ d.parameter_name ++ " value " ++
            ratStr d.final_value ++ " outside range [" ++ ratStr d.min_val ++
            ", " ++ ratStr d.max_val ++ "]"]
        else acc) acc = acc := by
  induction l generalizing acc with
  | nil => rfl
  | cons d rest ih =>
    have hd := h d (List.mem_cons_self d rest)
    simp only [List.foldl_cons, if_neg hd]
    exact ih acc (fun x hx => h x (List.mem_cons_of_mem d hx))

/-- The routing fold of `validate_decisions` adds nothing when every
amount is within [0, 1]. -/
theorem validate_routing_fold_nil (l : List DecisionHeads.RoutingDecision)
    (acc : List String)
    (h : ∀ d ∈ l, ¬ (d.amount < 0 ∨ d.amount > 1)) :
    l.foldl
      (fun acc d =>
        if d.amount < 0 ∨ d.amount > 1 then
          acc ++ ["Routing " ++ d.source ++ "->" ++ d.target ++ " amount " ++
            ratStr d.amount ++ " outside range [0.0, 1.0]"]
        else acc) acc = acc := by
  induction l generalizing acc with
  | nil => rfl
  | cons d rest ih =>
    have hd := h d (List.mem_cons_self d rest)
    simp only [List.foldl_cons, if_neg hd]
    exact ih acc (fun x hx => h x (List.mem_cons_of_mem d hx))

/-- Every installed value head has ordered declared bounds. -/
theorem value_heads_bounds_ordered :
    ∀ h ∈ DecisionHeads.value_heads, h.min_val ≤ h.max_val := by
  intro h hh
  simp only [DecisionHeads.value_heads, List.mem_cons,
    List.mem_singleton] at hh
  rcases hh with rfl | rfl | rfl | rfl | rfl | rfl | rfl | rfl | h0
  · norm_num
  · norm_num
  · norm_num
  · norm_num
  · norm_num
  · norm_num
  · norm_num
  · norm_num
  · cases h0

/-- C9: `validate_decisions` applied to engine-produced decisions always
returns the empty issue list — every resolved value lies inside its
declared bounds and every routing amount lies inside [0, 1], for every
context, every ambient generator state, every hash function and every
possible behaviour of the seeded samplers; the out-of-bounds reporting
branch is unreachable for engine-produced decisions. -/
theorem c9_validate_engine_decisions
    (hashBytes : List Rat → Nat) (hashBytesTarget : List Rat → String → Nat)
    (normalSample : Nat → Nat → Rat → Rat)
    (uniformSample : Nat → Nat → Rat → Rat → Rat)
    (vecNorm : List Rat → Rat) (context : DecisionHeads.Context)
    (st : DecisionHeads.RngState) :
    DecisionHeads.validate_decisions
      ((DecisionHeads.infer_decisions hashBytes hashBytesTarget normalSample
        uniformSample vecNorm context st).1) = [] := by
  have hval : ∀ d ∈ ((DecisionHeads.infer_decisions hashBytes hashBytesTarget
      normalSample uniformSample vecNorm context st).1).value_decisions,
      ¬ (d.final_value < d.min_val ∨ d.final_value > d.max_val) := by
    intro d hd
    unfold DecisionHeads.infer_decisions at hd
    simp only at hd
    rcases valueFold_mem hashBytes normalSample context
      DecisionHeads.value_heads _ d hd with h0 | ⟨h, hh, st2, hmem⟩
    · cases h0
    · exact valueHead_infer_bounds hashBytes normalSample h
        (value_heads_bounds_ordered h hh) context st2 d hmem
  have hrout : ∀ d ∈ ((DecisionHeads.infer_decisions hashBytes hashBytesTarget
      normalSample uniformSample vecNorm context st).1).routing_decisions,
      ¬ (d.amount < 0 ∨ d.amount > 1) := by
    intro d hd
    unfold DecisionHeads.infer_decisions at hd
    simp only at hd
    rcases routingFold_mem hashBytesTarget uniformSample vecNorm context
      DecisionHeads.routing_heads _ d hd with h0 | ⟨h, hh, st2, hmem⟩
    · cases h0
    · exact routingHead_infer_amount hashBytesTarget uniformSample vecNorm h
        context st2 d hmem
  unfold DecisionHeads.validate_decisions
  rw [validate_value_fold_nil _ _ hval]
  exact validate_routing_fold_nil _ _ hrout

/-! ## Graph builder (`graph_builder.py`) -/

/-- The decimal digit character for `k` (`k` is taken mod-like: any value
above 9 maps to `'9'`, but it is only ever applied to `n % 10`). -/
def digitChar (k : Nat) : Char :=
  match k with
  | 0 => '0' | 1 => '1' | 2 => '2' | 3 => '3' | 4 => '4'
  | 5 => '5' | 6 => '6' | 7 => '7' | 8 => '8' | _ => '9'

/-- Fuel-indexed decimal printer; the fuel always exceeds the number of
digits when called through `decChars`. -/
def decCharsAux : Nat → Nat → List Char
  | 0, _ => []
  | fuel + 1, n =>
    if n < 10 then [digitChar n]
    else decCharsAux fuel (n / 10) ++ [digitChar (n % 10)]

/-- Decimal representation of a natural number, most significant digit
first (the rendering Python's f-strings use for node indexes). -/
def decChars (n : Nat) : List Char := decCharsAux (n + 1) n

/-- Decimal string of a natural number. -/
def decStr (n : Nat) : String := String.mk (decChars n)

/-- Every character produced by `digitChar` is a digit. -/
theorem digitChar_isDigit (k : Nat) : (digitChar k).isDigit = true := by
  unfold digitChar
  split <;> decide

/-- `digitChar` is the inverse of the character-code offset for digits. -/
theorem digitChar_toNat (k : Nat) (h : k < 10) :
    (digitChar k).toNat - 48 = k := by
  interval_cases k <;> decide

/-- Every character produced by `decCharsAux` (with enough fuel) is a
digit. -/
theorem decCharsAux_digits (fuel : Nat) :
    ∀ n, n < fuel → ∀ c ∈ decCharsAux fuel n, c.isDigit = true := by
  induction fuel with
  | zero => intro n hn; omega
  | succ fuel ih =>
    intro n _hn c hc
    unfold decCharsAux at hc
    split at hc
    · simp only [List.mem_singleton] at hc
      subst hc
      exact digitChar_isDigit n
    · simp only [List.mem_append, List.mem_singleton] at hc
      rcases hc with hc | hc
      · have hdiv : n / 10 < n := Nat.div_lt_self (by omega) (by omega)
        exact ih (n / 10) (by omega) c hc
      · subst hc
        exact digitChar_isDigit (n % 10)

/-- Every character of a decimal representation is a digit. -/
theorem decChars_digits (n : Nat) : ∀ c ∈ decChars n, c.isDigit = true :=
  decCharsAux_digits (n + 1) n (by omega)

/-- Numeric value of a digit list (used only to prove `decChars`
injective). -/
def decVal (cs : List Char) : Nat :=
  cs.foldl (fun a c => 10 * a + (c.toNat - 48)) 0

/-- `decVal` over an appended final digit. -/
theorem decVal_append_singleton (l : List Char) (c : Char) :
    decVal (l ++ [c]) = 10 * decVal l + (c.toNat - 48) := by
  unfold decVal
  rw [List.foldl_append]
  rfl

/-- Reading back a decimal representation printed with enough fuel gives
the number back. -/
theorem decVal_decCharsAux (fuel : Nat) :
    ∀ n, n < fuel → decVal (decCharsAux fuel n) = n := by
  induction fuel with
  | zero => intro n hn; omega
  | succ fuel ih =>
    intro n _hn
    unfold decCharsAux
    split
    · simp only [decVal, List.foldl_cons, List.foldl_nil]
      rw [digitChar_toNat n (by omega)]
      omega
    · have hdiv : n / 10 < n := Nat.div_lt_self (by omega) (by omega)
      rw [decVal_append_singleton, ih (n / 10) (by omega),
        digitChar_toNat (n % 10) (by omega)]
      omega

/-- Reading back the decimal representation gives the number. -/
theorem decVal_decChars (n : Nat) : decVal (decChars n) = n :=
  decVal_decCharsAux (n + 1) n (by omega)

/-- `decChars` is injective. -/
theorem decChars_injective {m n : Nat} (h : decChars m = decChars n) :
    m = n := by
  have := decVal_decChars m
  rw [h, decVal_decChars] at this
  omega

/-- Splitting equal lists at the first separator after a digit-only
prefix: the digit prefixes and the tails agree. -/
theorem digits_underscore_split (d1 : List Char)
    (h1 : ∀ c ∈ d1, c.isDigit = true) :
    ∀ (d2 r1 r2 : List Char), (∀ c ∈ d2, c.isDigit = true) →
    d1 ++ '_' :: r1 = d2 ++ '_' :: r2 → d1 = d2 ∧ r1 = r2 := by
  induction d1 with
  | nil =>
    intro d2 r1 r2 h2 heq
    cases d2 with
    | nil => simpa using heq
    | cons c t =>
      simp only [List.nil_append, List.cons_append, List.cons.injEq] at heq
      have hd := h2 c (List.mem_cons_self c t)
      rw [← heq.1] at hd
      cases hd
  | cons c t ih =>
    intro d2 r1 r2 h2 heq
    cases d2 with
    | nil =>
      simp only [List.cons_append, List.nil_append, List.cons.injEq] at heq
      have hd := h1 c (List.mem_cons_self c t)
      rw [heq.1] at hd
      cases hd
    | cons c2 t2 =>
      simp only [List.cons_append, List.cons.injEq] at heq
      obtain ⟨hc, htail⟩ := heq
      have := ih (fun x hx => h1 x (List.mem_cons_of_mem c hx)) t2 r1 r2
        (fun x hx => h2 x (List.mem_cons_of_mem c2 hx)) htail
      exact ⟨by rw [hc, this.1], this.2⟩

/-- Data of an appended string. -/
theorem str_data_append (s t : String) : (s ++ t).data = s.data ++ t.data :=
  rfl

/-- Strings with different character data are different. -/
theorem str_ne_of_data_ne {s t : String} (h : s.data ≠ t.data) : s ≠ t := by
  intro he
  exact h (by rw [he])

namespace GraphBuilder

/-- `GraphNode` (`core_models.py`): the `parameters` dict holds strings,
numbers and number lists, modelled as `PyVal`. -/
structure GraphNode where
  id : String
  node_type : String
  parameters : List (String × PyVal)
  inputs : List String
  outputs : List String
deriving DecidableEq

/-- `Graph` (`core_models.py`): `virtual_busses` defaults to the empty
map and — as the proofs below show — is never written by the builder. -/
structure Graph where
  nodes : List GraphNode
  connections : List (String × String × String × String)
  virtual_busses : List (String × List String)
  validation_passed : Bool
  validation_errors : List String
deriving DecidableEq

/-- The mutable state of a `GraphBuilder` instance: the `node_counter`
(never incremented by the source) and the three virtual-bus lists from
`__init__`. -/
structure BuilderState where
  node_counter : Nat
  mod_lfo : List String
  mod_env : List String
  macro_motion : List String
deriving DecidableEq

/-- A freshly constructed `GraphBuilder()`. -/
def initBuilder : BuilderState :=
  { node_counter := 0, mod_lfo := [], mod_env := [], macro_motion := [] }

/-- `_parse_time_to_seconds` (the builder's own parser: bare numbers are
always treated as milliseconds; a malformed number raises). -/
def parse_time_to_seconds : PyVal → Except String Rat
  | .num q => .ok (q / 1000)
  | .str s =>
    if strEndsWith s "ms" then
      match parsePyFloat (strDropRight s 2) with
      | Option.some q => .ok (q / 1000)
      | Option.none => .error (valueErrorFloat (strDropRight s 2))
    else if strEndsWith s "s" then
      match parsePyFloat (strDropRight s 1) with
      | Option.some q => .ok q
      | Option.none => .error (valueErrorFloat (strDropRight s 1))
    else
      match parsePyFloat s with
      | Option.some q => .ok (q / 1000)
      | Option.none => .error (valueErrorFloat s)
  | .list (a :: b :: _) => .ok ((a + b) / 2 / 1000)
  | .list _ => .error indexErrorMsg
  | .noneV => .ok 0

/-- `_parse_frequency_to_hz`: as in the normalizer, the `Hz` suffix is
checked before `kHz`, so the `kHz` branch is dead and `"25kHz"`
raises. -/
def parse_frequency_to_hz : PyVal → Except String Rat
  | .num q => .ok q
  | .str s =>
    if strEndsWith s "Hz" then
      match parsePyFloat (strDropRight s 2) with
      | Option.some q => .ok q
      | Option.none => .error (valueErrorFloat (strDropRight s 2))
    else if strEndsWith s "kHz" then
      match parsePyFloat (strDropRight s 3) with
      | Option.some q => .ok (q * 1000)
      | Option.none => .error (valueErrorFloat (strDropRight s 3))
    else
      match parsePyFloat s with
      | Option.some q => .ok q
      | Option.none => .error (valueErrorFloat s)
  | .list (a :: b :: _) => .ok ((a + b) / 2)
  | .list _ => .error indexErrorMsg
  | .noneV => .ok 1000

/-- `_parse_grain_density` (annotated `str`; calling it on a non-string
would raise `AttributeError`). -/
def parse_grain_density : PyVal → Except String Rat
  | .str s =>
    if strEndsWith s "/s" then
      match parsePyFloat (strDropRight s 2) with
      | Option.some q => .ok q
      | Option.none => .error (valueErrorFloat (strDropRight s 2))
    else .ok 80
  | _ => .error "AttributeError: endswith"

/-- `_get_oscillator_params`. -/
def get_oscillator_params (osc_type : OscillatorType)
    (osc_config : OscillatorConfig) (index : Nat) :
    Except String (List (String × PyVal)) := do
  let mixv := osc_config.mix_ratios.getD index (PyVal.num 1)
  let params := [("type", PyVal.str osc_type.value), ("mix", mixv),
    ("detune", osc_config.detune)]
  match osc_type with
  | .fm =>
    .ok (params ++
      [("modulation_index", pyOr osc_config.modulation_index (.num 1)),
       ("carrier_ratio", pyOr osc_config.carrier_ratio (.num 1))])
  | .wavetable => do
    let mr ← parse_frequency_to_hz (pyOr osc_config.morph_rate (.str "0.1Hz"))
    .ok (params ++ [("table_index", pyOr osc_config.table_index (.num 0)),
      ("morph_rate", .num mr)])
  | .granular => do
    let gd ← parse_grain_density (pyOr osc_config.grain_density (.str "80/s"))
    let gs ← parse_time_to_seconds (pyOr osc_config.grain_size (.str "30ms"))
    .ok (params ++ [("grain_density", .num gd), ("grain_size", .num gs)])
  | .additive =>
    let hs := match osc_config.harmonics with
      | Option.some l => if l ≠ [] then l else [1]
      | Option.none => [1]
    .ok (params ++ [("harmonics", .list hs)])
  | _ => .ok params

/-- `_add_oscillator_nodes`: one node per declared oscillator type, with
ids `osc_{i}_{type}`. -/
def oscillatorNodes (osc_config : OscillatorConfig) :
    Nat → List OscillatorType → Except String (List GraphNode)
  | _, [] => .ok []
  | i, t :: rest => do
    let params ← get_oscillator_params t osc_config i
    let ns ← oscillatorNodes osc_config (i + 1) rest
    .ok ({ id := "osc_" ++ decStr i ++ "_" ++ t.value,
           node_type := "oscillator", parameters := params,
           inputs := [], outputs := ["audio_out"] } :: ns)

/-- `_add_envelope_nodes` (without the bus append, which is threaded in
`build_graph`).  The source checks `isinstance(..., float)` for sustain;
any non-number falls back to 0.7. -/
def envelopeNode (preset : JsonPreset) : Except String GraphNode := do
  let attack ← parse_time_to_seconds preset.envelope.attack
  let decay ← parse_time_to_seconds preset.envelope.decay
  let sustain := match preset.envelope.sustain with
    | .num q => q
    | _ => 7/10
  let release ← parse_time_to_seconds preset.envelope.release
  let params := [("attack", PyVal.num attack), ("decay", PyVal.num decay),
    ("sustain", PyVal.num sustain), ("release", PyVal.num release),
    ("curve", PyVal.str preset.envelope.curve.value),
    ("type", PyVal.str preset.envelope.type.value)]
  let params ←
    if pyTruthy preset.envelope.hold then do
      let h ← parse_time_to_seconds preset.envelope.hold
      pure (params ++ [("hold", PyVal.num h)])
    else pure params
  let params ←
    if pyTruthy preset.envelope.delay then do
      let d ← parse_time_to_seconds preset.envelope.delay
      pure (params ++ [("delay", PyVal.num d)])
    else pure params
  .ok { id := "env_main", node_type := "envelope", parameters := params,
        inputs := ["gate_in"], outputs := ["env_out"] }

/-- `_add_filter_nodes`. -/
def filterNode (preset : JsonPreset) : Except String GraphNode := do
  let cutoff ← parse_frequency_to_hz preset.filter.cutoff
  let resonance := match preset.filter.resonance with
    | .num q => q
    | _ => 1/2
  let env_amount := match preset.filter.envelope_amount with
    | .num q => q
    | _ => 0
  .ok { id := "filter_main", node_type := "filter",
        parameters := [("type", PyVal.str preset.filter.type.value),
          ("cutoff", PyVal.num cutoff), ("resonance", PyVal.num resonance),
          ("envelope_amount", PyVal.num env_amount),
          ("slope", PyVal.str preset.filter.slope)],
        inputs := ["audio_in", "mod_in"], outputs := ["audio_out"] }

/-- `_get_effect_params`. -/
def get_effect_params (effect : EffectConfig) :
    Except String (List (String × PyVal)) := do
  let mix := match effect.mix with
    | .num q => q
    | _ => 1/2
  let params := [("type", PyVal.str effect.type), ("mix", PyVal.num mix)]
  let params := match effect.feedback with
    | Option.some (.num q) => params ++ [("feedback", PyVal.num q)]
    | Option.some _ => params ++ [("feedback", PyVal.num (3/10))]
    | Option.none => params
  let params ←
    match effect.time with
    | Option.none => pure params
    | Option.some v => do
      let t ← parse_time_to_seconds v
      pure (params ++ [("time", PyVal.num t)])
  let params := match effect.gain with
    | Option.some (.num q) => params ++ [("gain", PyVal.num q)]
    | Option.some _ => params ++ [("gain", PyVal.num (1/2))]
    | Option.none => params
  let params ←
    match effect.decay with
    | Option.none => pure params
    | Option.some v => do
      let t ← parse_time_to_seconds v
      pure (params ++ [("decay", PyVal.num t)])
  let params := match effect.wet with
    | Option.some (.num q) => params ++ [("wet", PyVal.num q)]
    | Option.some _ => params ++ [("wet", PyVal.num (1/2))]
    | Option.none => params
  let params ←
    match effect.rate with
    | Option.none => pure params
    | Option.some v => do
      let f ← parse_frequency_to_hz v
      pure (params ++ [("rate", PyVal.num f)])
  let params := match effect.depth with
    | Option.some (.num q) => params ++ [("depth", PyVal.num q)]
    | Option.some _ => params ++ [("depth", PyVal.num (1/2))]
    | Option.none => params
  .ok params

/-- `_add_effect_nodes`: one node per effect, with ids
`fx_{i}_{effect.type}`. -/
def effectNodes : Nat → List EffectConfig → Except String (List GraphNode)
  | _, [] => .ok []
  | i, e :: rest => do
    let params ← get_effect_params e
    let ns ← effectNodes (i + 1) rest
    .ok ({ id := "fx_" ++ decStr i ++ "_" ++ e.type, node_type := "effect",
           parameters := params, inputs := ["audio_in"],
           outputs := ["audio_out"] } :: ns)

/-- `_add_spatial_nodes`: the stereo-width node. -/
def stereoNode : GraphNode :=
  { id := "stereo_width", node_type := "stereo",
    parameters := [("width", PyVal.num 1), ("pan", PyVal.num 0)],
    inputs := ["audio_in"], outputs := ["left_out", "right_out"] }

/-- `_add_limiter_nodes`: the true-peak limiter (appended first). -/
def limiterNode : GraphNode :=
  { id := "limiter_tp", node_type := "limiter",
    parameters := [("threshold", PyVal.num (-1)),
      ("release", PyVal.num (1/10)), ("lookahead", PyVal.num (5/1000))],
    inputs := ["audio_in"], outputs := ["audio_out"] }

/-- `_add_limiter_nodes`: the soft clipper (appended second). -/
def clipperNode : GraphNode :=
  { id := "clipper_soft", node_type := "clipper",
    parameters := [("threshold", PyVal.num (-3)), ("ratio", PyVal.num (1/10))],
    inputs := ["audio_in"], outputs := ["audio_out"] }

/-- `_add_modulation_routing`: the fixed 0.5 Hz sine LFO node. -/
def lfoNode : GraphNode :=
  { id := "lfo_main", node_type := "lfo",
    parameters := [("frequency", PyVal.num (1/2)),
      ("waveform", PyVal.str "sine"), ("depth", PyVal.num (1/10))],
    inputs := [], outputs := ["lfo_out"] }

/-- `_connect_signal_chain`: scan the node list by `node_type` and wire
the fixed topology (oscillators → filter, envelope → filter modulation,
filter → effect chain → stereo → clipper → limiter). -/
def connect_signal_chain (nodes : List GraphNode) :
    List (String × String × String × String) :=
  let osc_nodes := nodes.filter (fun n => n.node_type == "oscillator")
  let env_node := nodes.find? (fun n => n.node_type == "envelope")
  let filter_node := nodes.find? (fun n => n.node_type == "filter")
  let fx_nodes := nodes.filter (fun n => n.node_type == "effect")
  let stereo_node := nodes.find? (fun n => n.node_type == "stereo")
  let limiter_node := nodes.find? (fun n => n.node_type == "limiter")
  let clipper_node := nodes.find? (fun n => n.node_type == "clipper")
  let conns := match filter_node with
    | Option.some f =>
      osc_nodes.map (fun osc => (osc.id, "audio_out", f.id, "audio_in"))
    | Option.none => []
  let conns := conns ++ (match env_node, filter_node with
    | Option.some e, Option.some f => [(e.id, "env_out", f.id, "mod_in")]
    | _, _ => [])
  let folded := fx_nodes.foldl
    (fun (acc : List (String × String × String × String) × Option GraphNode)
        fx =>
      match acc.2 with
      | Option.some cur =>
        (acc.1 ++ [(cur.id, "audio_out", fx.id, "audio_in")], Option.some fx)
      | Option.none => (acc.1, Option.some fx))
    ([], filter_node)
  let conns := conns ++ folded.1
  let conns := conns ++ (match folded.2, stereo_node with
    | Option.some cur, Option.some s =>
      [(cur.id, "audio_out", s.id, "audio_in")]
    | _, _ => [])
  let conns := conns ++ (match stereo_node, clipper_node with
    | Option.some s, Option.some c =>
      [(s.id, "left_out", c.id, "audio_in"),
       (s.id, "right_out", c.id, "audio_in")]
    | _, _ => [])
  conns ++ (match clipper_node, limiter_node with
    | Option.some c, Option.some l => [(c.id, "audio_out", l.id, "audio_in")]
    | _, _ => [])

/-- `dict.get` on a parameter map. -/
def pyGetParam (params : List (String × PyVal)) (k : String) (dflt : PyVal) :
    PyVal :=
  (params.lookup k).getD dflt

/-- Python `value < bound` on a dynamically typed parameter: comparing a
non-number against a float raises `TypeError`. -/
def pyValLtNum (v : PyVal) (r : Rat) : Except String Bool :=
  match v with
  | .num q => .ok (decide (q < r))
  | _ => .error typeErrorMsg

/-- Python `value > bound` on a dynamically typed parameter. -/
def pyValGtNum (v : PyVal) (r : Rat) : Except String Bool :=
  match v with
  | .num q => .ok (decide (q > r))
  | _ => .error typeErrorMsg

/-- Rendering of a parameter value inside a validation message. -/
def pyValStr : PyVal → String
  | .num q => ratStr q
  | .str s => s
  | .list _ => "[...]"
  | .noneV => "None"

/-- The `for from_node, ... in graph.connections` loop inside
`has_cycle` of `_has_feedback_loops`; `ih` is the recursive call for the
next depth level. -/
def dfs_conns_go
    (ih : String → List String → List String → Bool × List String)
    (nid : String) (recStack : List String) :
    List (String × String × String × String) → List String →
    Bool × List String
  | [], visited => (false, visited)
  | c :: rest, visited =>
    if c.1 = nid then
      let toNode := c.2.2.1
      if recStack.contains toNode then (true, visited)
      else if visited.contains toNode then
        dfs_conns_go ih nid recStack rest visited
      else
        match ih toNode visited recStack with
        | (true, visited2) => (true, visited2)
        | (false, visited2) => dfs_conns_go ih nid recStack rest visited2
    else dfs_conns_go ih nid recStack rest visited

/-- `has_cycle(node_id)` of `_has_feedback_loops`: mark the node visited,
push it on the recursion stack, and scan the connection list for outgoing
edges.  The `fuel` argument only bounds the recursion depth of the model;
it is chosen large enough in `has_feedback_loops` that it is never
exhausted on the graphs the builder produces. -/
def dfs_cycle (connsAll : List (String × String × String × String)) :
    Nat → String → List String → List String → Bool × List String
  | 0 => fun _ visited _ => (true, visited)
  | fuel + 1 => fun nid visited recStack =>
    let visited := if visited.contains nid then visited else nid :: visited
    dfs_conns_go (dfs_cycle connsAll fuel) nid (nid :: recStack) connsAll
      visited

/-- `_has_feedback_loops`: run the DFS from every not-yet-visited node.
The fuel bound exceeds the number of node ids that can ever be pushed, so
on the builder's graphs the model never exhausts it. -/
def has_feedback_loops (nodes : List GraphNode)
    (conns : List (String × String × String × String)) : Bool :=
  let fuel := nodes.length + 2 * conns.length + 1
  (nodes.foldl
    (fun (acc : Bool × List String) node =>
      if acc.1 then acc
      else if acc.2.contains node.id then acc
      else dfs_cycle conns fuel node.id acc.2 [])
    (false, [])).1

/-- The per-node parameter-range checks of `_validate_graph`. -/
def nodeRangeErrors : List GraphNode → List String →
    Except String (List String)
  | [], errs => .ok errs
  | n :: rest, errs => do
    let errs ←
      if n.node_type = "filter" then do
        let cutoff := pyGetParam n.parameters "cutoff" (.num 1000)
        let lt ← pyValLtNum cutoff 20
        let gt ← pyValGtNum cutoff 20000
        let errs := if lt || gt then
            errs ++ ["Filter cutoff " ++ pyValStr cutoff ++
              "Hz out of range [20, 20000]"]
          else errs
        let resonance := pyGetParam n.parameters "resonance" (.num 0)
        let gtr ← pyValGtNum resonance (9/10)
        pure (if gtr then
            errs ++ ["Filter resonance " ++ pyValStr resonance ++
              " exceeds maximum 0.9"]
          else errs)
      else if n.node_type = "effect" then
        if pyGetParam n.parameters "type" .noneV = PyVal.str "delay" then do
          let feedback := pyGetParam n.parameters "feedback" (.num 0)
          let gtf ← pyValGtNum feedback (85/100)
          pure (if gtf then
              errs ++ ["Delay feedback " ++ pyValStr feedback ++
                " exceeds maximum 0.85"]
            else errs)
        else pure errs
      else pure errs
    nodeRangeErrors rest errs

/-- The disconnected-node check of `_validate_graph`: every node except
`lfo`/`envelope` types must appear in some connection. -/
def disconnectedErrors (nodes : List GraphNode)
    (conns : List (String × String × String × String)) : List String :=
  let connected := conns.foldl
    (fun acc c => acc ++ [c.1, c.2.2.1]) []
  nodes.foldl
    (fun errs node =>
      if ¬ connected.contains node.id ∧
          node.node_type ≠ "lfo" ∧ node.node_type ≠ "envelope" then
        errs ++ ["Node " ++ node.id ++ " is not connected to signal chain"]
      else errs) []

/-- `_validate_graph`: cycle detection, parameter ranges and
connectivity; `validation_passed` is true iff the error list is empty. -/
def validate_graph (nodes : List GraphNode)
    (conns : List (String × String × String × String)) :
    Except String (Bool × List String) := do
  let errors :=
    if has_feedback_loops nodes conns then ["Feedback loop detected in graph"]
    else []
  let errors ← nodeRangeErrors nodes errors
  let errors := errors ++ disconnectedErrors nodes conns
  .ok (errors.length = 0, errors)

/-- `GraphBuilder.build_graph`: node construction in fixed order, signal
chain wiring, modulation routing (with the builder-state bus appends),
then validation.  The returned `Graph`'s `virtual_busses` field is the
`Graph()` default — the empty map — because the source appends to
`self.virtual_busses` (the builder), never to `graph.virtual_busses`. -/
def build_graph (st : BuilderState) (preset : JsonPreset) :
    Except String (Graph × BuilderState) := do
  let osc_nodes ← oscillatorNodes preset.oscillator 0 preset.oscillator.types
  let env_node ← envelopeNode preset
  let st := { st with mod_env := st.mod_env ++ ["env_main"] }
  let filter_node ← filterNode preset
  let fx_nodes ← effectNodes 0 preset.fx
  let nodes := osc_nodes ++ [env_node] ++ [filter_node] ++ fx_nodes ++
    [stereoNode] ++ [limiterNode, clipperNode]
  let conns := connect_signal_chain nodes
  let nodes := nodes ++ [lfoNode]
  let st := { st with mod_lfo := st.mod_lfo ++ ["lfo_main"] }
  let conns := conns ++
    (match nodes.find? (fun n => n.node_type == "filter") with
     | Option.some f => [("lfo_main", "lfo_out", f.id, "mod_in")]
     | Option.none => [])
  let vres ← validate_graph nodes conns
  .ok ({ nodes := nodes, connections := conns, virtual_busses := [],
         validation_passed := vres.1, validation_errors := vres.2 }, st)

end GraphBuilder

/-- C4 amended: `build_graph` registers the envelope node on the
*builder's* `mod_env` bus and the LFO node on the *builder's* `mod_lfo`
bus, while the returned `Graph`'s own `virtual_busses` map is left at its
default empty value (the source appends to `self.virtual_busses`, never
to `graph.virtual_busses`). -/
theorem c4_builder_busses (st : GraphBuilder.BuilderState) (p : JsonPreset)
    (g : GraphBuilder.Graph) (st2 : GraphBuilder.BuilderState)
    (h : GraphBuilder.build_graph st p = Except.ok (g, st2)) :
    g.virtual_busses = [] ∧ "env_main" ∈ st2.mod_env ∧
    "lfo_main" ∈ st2.mod_lfo := by
  simp only [GraphBuilder.build_graph] at h
  cases h1 : GraphBuilder.oscillatorNodes p.oscillator 0 p.oscillator.types with
  | error e => rw [h1] at h; simp [exceptBind_error] at h
  | ok oscs =>
  rw [h1] at h
  simp only [exceptBind_ok] at h
  cases h2 : GraphBuilder.envelopeNode p with
  | error e => rw [h2] at h; simp [exceptBind_error] at h
  | ok envn =>
  rw [h2] at h
  simp only [exceptBind_ok] at h
  cases h3 : GraphBuilder.filterNode p with
  | error e => rw [h3] at h; simp [exceptBind_error] at h
  | ok filn =>
  rw [h3] at h
  simp only [exceptBind_ok] at h
  cases h4 : GraphBuilder.effectNodes 0 p.fx with
  | error e => rw [h4] at h; simp [exceptBind_error] at h
  | ok fxns =>
  rw [h4] at h
  simp only [exceptBind_ok] at h
  cases h5 : GraphBuilder.validate_graph
      ((oscs ++ [envn] ++ [filn] ++ fxns ++ [GraphBuilder.stereoNode] ++
        [GraphBuilder.limiterNode, GraphBuilder.clipperNode]) ++
        [GraphBuilder.lfoNode])
      (GraphBuilder.connect_signal_chain
        (oscs ++ [envn] ++ [filn] ++ fxns ++ [GraphBuilder.stereoNode] ++
          [GraphBuilder.limiterNode, GraphBuilder.clipperNode]) ++
        (match ((oscs ++ [envn] ++ [filn] ++ fxns ++ [GraphBuilder.stereoNode] ++
            [GraphBuilder.limiterNode, GraphBuilder.clipperNode]) ++
            [GraphBuilder.lfoNode]).find?
            (fun n => n.node_type == "filter") with
         | Option.some f => [("lfo_main", "lfo_out", f.id, "mod_in")]
         | Option.none => [])) with
  | error e => rw [h5] at h; simp [exceptBind_error] at h
  | ok vres =>
  rw [h5] at h
  simp only [exceptBind_ok, exceptPure_eq_ok, Except.ok.injEq,
    Prod.mk.injEq] at h
  obtain ⟨hg, hst⟩ := h
  subst hg
  subst hst
  refine ⟨rfl, ?_, ?_⟩
  · simp
  · simp

/-- The oscillator node the builder creates for `c7preset`. -/
def c7oscN : GraphBuilder.GraphNode :=
  { id := "osc_0_sine", node_type := "oscillator",
    parameters := [("type", PyVal.str "sine"), ("mix", PyVal.num 1),
      ("detune", PyVal.num 0)],
    inputs := [], outputs := ["audio_out"] }

/-- The envelope node the builder creates for `c7preset` (the builder's
time parser divides bare numbers by 1000). -/
def c7envN : GraphBuilder.GraphNode :=
  { id := "env_main", node_type := "envelope",
    parameters := [("attack", PyVal.num (50/1000)),
      ("decay", PyVal.num (100/1000)), ("sustain", PyVal.num (7/10)),
      ("release", PyVal.num (500/1000)), ("curve", PyVal.str "linear"),
      ("type", PyVal.str "ADSR")],
    inputs := ["gate_in"], outputs := ["env_out"] }

/-- The filter node the builder creates for `c7preset`. -/
def c7filN : GraphBuilder.GraphNode :=
  { id := "filter_main", node_type := "filter",
    parameters := [("type", PyVal.str "low-pass"), ("cutoff", PyVal.num 1000),
      ("resonance", PyVal.num 0), ("envelope_amount", PyVal.num 0),
      ("slope", PyVal.str "12dB/oct")],
    inputs := ["audio_in", "mod_in"], outputs := ["audio_out"] }

/-- The node list of the graph built from `c7preset`. -/
def c7nodes : List GraphBuilder.GraphNode :=
  [c7oscN, c7envN, c7filN, GraphBuilder.stereoNode,
   GraphBuilder.limiterNode, GraphBuilder.clipperNode, GraphBuilder.lfoNode]

/-- The connection list of the graph built from `c7preset`. -/
def c7conns : List (String × String × String × String) :=
  [("osc_0_sine", "audio_out", "filter_main", "audio_in"),
   ("env_main", "env_out", "filter_main", "mod_in"),
   ("filter_main", "audio_out", "stereo_width", "audio_in"),
   ("stereo_width", "left_out", "clipper_soft", "audio_in"),
   ("stereo_width", "right_out", "clipper_soft", "audio_in"),
   ("clipper_soft", "audio_out", "limiter_tp", "audio_in"),
   ("lfo_main", "lfo_out", "filter_main", "mod_in")]

/-- The graph built from `c7preset`: valid, and with the default (empty)
`virtual_busses` map. -/
def c7graph : GraphBuilder.Graph :=
  { nodes := c7nodes, connections := c7conns, virtual_busses := [],
    validation_passed := true, validation_errors := [] }

/-- The builder state after building `c7preset` from a fresh builder. -/
def c7bst : GraphBuilder.BuilderState :=
  { node_counter := 0, mod_lfo := ["lfo_main"], mod_env := ["env_main"],
    macro_motion := [] }

/-- Stage evaluation: the oscillator nodes of `c7preset`. -/
theorem c7e_osc : GraphBuilder.oscillatorNodes c7preset.oscillator 0
    c7preset.oscillator.types = Except.ok [c7oscN] := rfl

/-- Stage evaluation: the envelope node of `c7preset`. -/
theorem c7e_env : GraphBuilder.envelopeNode c7preset = Except.ok c7envN := rfl

/-- Stage evaluation: the filter node of `c7preset`. -/
theorem c7e_fil : GraphBuilder.filterNode c7preset = Except.ok c7filN := rfl

/-- Stage evaluation: `c7preset` has no effects. -/
theorem c7e_fx : GraphBuilder.effectNodes 0 c7preset.fx = Except.ok [] := rfl

/-- Stage evaluation: the signal chain wiring of the `c7preset` nodes. -/
theorem c7e_chain : GraphBuilder.connect_signal_chain
    [c7oscN, c7envN, c7filN, GraphBuilder.stereoNode,
     GraphBuilder.limiterNode, GraphBuilder.clipperNode] =
    [("osc_0_sine", "audio_out", "filter_main", "audio_in"),
     ("env_main", "env_out", "filter_main", "mod_in"),
     ("filter_main", "audio_out", "stereo_width", "audio_in"),
     ("stereo_width", "left_out", "clipper_soft", "audio_in"),
     ("stereo_width", "right_out", "clipper_soft", "audio_in"),
     ("clipper_soft", "audio_out", "limiter_tp", "audio_in")] := by decide

/-- Stage evaluation: the LFO target lookup finds the filter node. -/
theorem c7e_find : List.find? (fun n => n.node_type == "filter")
    [c7oscN, c7envN, c7filN, GraphBuilder.stereoNode,
     GraphBuilder.limiterNode, GraphBuilder.clipperNode,
     GraphBuilder.lfoNode] = Option.some c7filN := by decide

/-- The id of the filter node. -/
theorem c7filN_id : c7filN.id = "filter_main" := rfl

/-- Stage evaluation: the built graph has no feedback loop. -/
theorem c7e_dfs : GraphBuilder.has_feedback_loops c7nodes c7conns = false := by
  decide

/-- Stage evaluation: every non-modulation node is connected. -/
theorem c7e_disc : GraphBuilder.disconnectedErrors c7nodes c7conns = [] := by
  decide

/-- Stage evaluation: all parameter-range checks pass. -/
theorem c7e_range : GraphBuilder.nodeRangeErrors c7nodes [] =
    Except.ok [] := by
  have h1 : ¬ ((1000 : Rat) < 20) := by norm_num
  have h2 : ¬ ((20000 : Rat) < 1000) := by norm_num
  have h3 : ¬ ((9/10 : Rat) < 0) := by norm_num
  simp only [GraphBuilder.nodeRangeErrors, GraphBuilder.pyGetParam,
    GraphBuilder.pyValLtNum, GraphBuilder.pyValGtNum, exceptBind_ok,
    c7oscN, c7envN, c7filN, GraphBuilder.stereoNode, GraphBuilder.limiterNode,
    GraphBuilder.clipperNode, GraphBuilder.lfoNode, List.lookup,
    Option.getD, h1, h2, h3, decide_False, String.reduceEq,
    String.reduceBEq, exceptPure_eq_ok, reduceIte,
    Bool.or_false, Bool.false_or, Bool.or_self, if_false, if_true,
    decide_True, gt_iff_lt]
  simp

/-- Stage evaluation: validation of the `c7preset` graph passes. -/
theorem c7e_validate : GraphBuilder.validate_graph c7nodes c7conns =
    Except.ok (true, []) := by
  simp only [GraphBuilder.validate_graph, c7e_dfs, c7e_range, c7e_disc,
    exceptBind_ok, exceptPure_eq_ok, Bool.false_eq_true, if_false,
    List.append_nil, List.length_nil]
  simp

/-- The full evaluation of `build_graph` on `c7preset` from a fresh
builder: it succeeds, producing `c7graph` and the builder state with the
two bus registrations. -/
theorem c7_build_eval : GraphBuilder.build_graph GraphBuilder.initBuilder
    c7preset = Except.ok (c7graph, c7bst) := by
  simp only [GraphBuilder.build_graph, c7e_osc, c7e_env, c7e_fil, c7e_fx,
    exceptBind_ok, exceptPure_eq_ok, List.cons_append, List.nil_append,
    List.append_nil, c7e_chain, c7e_find, c7filN_id]
  rw [show GraphBuilder.validate_graph
      [c7oscN, c7envN, c7filN, GraphBuilder.stereoNode,
       GraphBuilder.limiterNode, GraphBuilder.clipperNode,
       GraphBuilder.lfoNode]
      [("osc_0_sine", "audio_out", "filter_main", "audio_in"),
       ("env_main", "env_out", "filter_main", "mod_in"),
       ("filter_main", "audio_out", "stereo_width", "audio_in"),
       ("stereo_width", "left_out", "clipper_soft", "audio_in"),
       ("stereo_width", "right_out", "clipper_soft", "audio_in"),
       ("clipper_soft", "audio_out", "limiter_tp", "audio_in"),
       ("lfo_main", "lfo_out", "filter_main", "mod_in")] =
      Except.ok (true, []) from c7e_validate]
  simp only [exceptBind_ok, exceptPure_eq_ok]
  rfl

/-- C4 counterexample: the claim says every `Graph` returned by
`build_graph` has the LFO registered on *its* `mod_lfo` virtual bus and
the envelope on *its* `mod_env` bus.  Here is a successful build whose
returned graph's virtual-bus map has no entry at all for either bus: the
source registers the nodes on the builder's `self.virtual_busses`, never
on the returned `Graph`. -/
theorem c4_counterexample :
    GraphBuilder.build_graph GraphBuilder.initBuilder c7preset =
      Except.ok (c7graph, c7bst) ∧
    c7graph.virtual_busses.lookup "mod_lfo" = Option.none ∧
    c7graph.virtual_busses.lookup "mod_env" = Option.none :=
  ⟨c7_build_eval, rfl, rfl⟩

/-- Witness for the amended C4 theorem at a concrete build. -/
theorem c4_builder_busses_witness :
    GraphBuilder.build_graph GraphBuilder.initBuilder c7preset =
      Except.ok (c7graph, c7bst) ∧
    (c7graph.virtual_busses = [] ∧ "env_main" ∈ c7bst.mod_env ∧
      "lfo_main" ∈ c7bst.mod_lfo) :=
  ⟨c7_build_eval, c4_builder_busses GraphBuilder.initBuilder c7preset
    c7graph c7bst c7_build_eval⟩

/-- The edge relation induced on node ids by a connection list. -/
def edgeRel (conns : List (String × String × String × String))
    (a b : String) : Prop :=
  ∃ pf pt, (a, pf, b, pt) ∈ conns

/-- A connection list induces a directed cycle when some node reaches
itself through a non-empty chain of connections. -/
def CycleIn (conns : List (String × String × String × String)) : Prop :=
  ∃ a, Relation.TransGen (edgeRel conns) a a

/-- A rank function that strictly increases along every connection makes
every reachability step increase the rank. -/
theorem transGen_rank (conns : List (String × String × String × String))
    (rank : String → Nat) (h : ∀ c ∈ conns, rank c.1 < rank c.2.2.1) :
    ∀ a b, Relation.TransGen (edgeRel conns) a b → rank a < rank b := by
  intro a b htg
  induction htg with
  | single he =>
    obtain ⟨pf, pt, hmem⟩ := he
    exact h _ hmem
  | tail _ he ih =>
    obtain ⟨pf, pt, hmem⟩ := he
    exact lt_trans ih (h _ hmem)

/-- No connection list with a strictly rank-increasing orientation has a
cycle. -/
theorem no_cycle_of_rank (conns : List (String × String × String × String))
    (rank : String → Nat) (h : ∀ c ∈ conns, rank c.1 < rank c.2.2.1) :
    ¬ CycleIn conns := by
  rintro ⟨a, htg⟩
  exact lt_irrefl _ (transGen_rank conns rank h a a htg)

/-- First position of an element in a list. -/
def posOf (s : String) : List String → Option Nat
  | [] => Option.none
  | t :: rest =>
    if t = s then Option.some 0 else (posOf s rest).map (· + 1)

/-- `posOf` misses exactly the non-members. -/
theorem posOf_eq_none (s : String) (l : List String) (h : s ∉ l) :
    posOf s l = Option.none := by
  induction l with
  | nil => rfl
  | cons t rest ih =>
    have hts : t ≠ s := fun he => h (he ▸ List.mem_cons_self t rest)
    simp [posOf, if_neg hts, ih (fun hm => h (List.mem_cons_of_mem t hm))]

/-- In a duplicate-free list, `posOf` recovers the index. -/
theorem posOf_get (l : List String) (hnd : l.Nodup) (k : Nat)
    (hk : k < l.length) : posOf (l.get ⟨k, hk⟩) l = Option.some k := by
  induction l generalizing k with
  | nil => simp at hk
  | cons t rest ih =>
    cases k with
    | zero => simp [posOf]
    | succ k =>
      have hkr : k < rest.length := by simpa using hk
      have hmem : rest.get ⟨k, hkr⟩ ∈ rest := List.get_mem rest k hkr
      have hne : t ≠ rest.get ⟨k, hkr⟩ := by
        intro he
        exact (List.nodup_cons.mp hnd).1 (he ▸ hmem)
      have hrec := ih (List.nodup_cons.mp hnd).2 k hkr
      show posOf ((t :: rest).get ⟨k + 1, hk⟩) (t :: rest) = Option.some (k + 1)
      rw [List.get_cons_succ]
      unfold posOf
      rw [if_neg hne, hrec]
      rfl

/-- Strings whose first three characters differ are different. -/
theorem ne_of_take3 {s t : String} (h : s.data.take 3 ≠ t.data.take 3) :
    s ≠ t := by
  intro he
  exact h (by rw [he])

/-- The ids of the effect nodes `_add_effect_nodes` creates, starting at
index `i`. -/
def fxIds : Nat → List EffectConfig → List String
  | _, [] => []
  | i, e :: rest => ("fx_" ++ decStr i ++ "_" ++ e.type) :: fxIds (i + 1) rest

/-- Every effect-node id is of the `fx_{index}_{type}` shape with index
at least the starting index. -/
theorem fxIds_shape (fx : List EffectConfig) :
    ∀ i, ∀ s ∈ fxIds i fx, ∃ j ty, i ≤ j ∧
      s = "fx_" ++ decStr j ++ "_" ++ ty := by
  induction fx with
  | nil => intro i s hs; cases hs
  | cons e rest ih =>
    intro i s hs
    rcases hs with _ | ⟨_, hs⟩
    · exact ⟨i, e.type, le_refl i, rfl⟩
    · obtain ⟨j, ty, hij, hval⟩ := ih (i + 1) s hs
      exact ⟨j, ty, by omega, hval⟩

/-- Character data of an `fx_{j}_{ty}` id. -/
theorem fxId_data (j : Nat) (ty : String) :
    ("fx_" ++ decStr j ++ "_" ++ ty).data =
      'f' :: 'x' :: '_' :: (decChars j ++ '_' :: ty.data) := by
  simp [decStr, str_data_append, String.data]

/-- Two `fx` ids with different indexes are different strings. -/
theorem fxId_idx_inj {i j : Nat} {ty tz : String}
    (h : ("fx_" ++ decStr i ++ "_" ++ ty) = ("fx_" ++ decStr j ++ "_" ++ tz)) :
    i = j := by
  have hd := congrArg String.data h
  rw [fxId_data, fxId_data] at hd
  simp only [List.cons.injEq, true_and] at hd
  have hsplit := digits_underscore_split (decChars i) (decChars_digits i)
    (decChars j) ty.data tz.data (decChars_digits j) hd
  exact decChars_injective hsplit.1

/-- The effect-node ids are pairwise distinct. -/
theorem fxIds_nodup (fx : List EffectConfig) : ∀ i, (fxIds i fx).Nodup := by
  induction fx with
  | nil => intro i; exact List.nodup_nil
  | cons e rest ih =>
    intro i
    refine List.nodup_cons.mpr ⟨?_, ih (i + 1)⟩
    intro hmem
    obtain ⟨j, ty, hij, hval⟩ := fxIds_shape rest (i + 1) _ hmem
    have := fxId_idx_inj hval
    omega

/-- The first three characters of every effect-node id are `fx_`. -/
theorem mem_fxIds_take3 {s : String} {i : Nat} {fx : List EffectConfig}
    (hs : s ∈ fxIds i fx) : s.data.take 3 = ['f', 'x', '_'] := by
  obtain ⟨j, ty, _, hval⟩ := fxIds_shape fx i s hs
  subst hval
  rw [fxId_data]
  rfl

/-- Every node `_add_oscillator_nodes` creates has type `oscillator` and
an `osc_{i}_{type}` id. -/
theorem oscillatorNodes_char (osc : OscillatorConfig) :
    ∀ ts i ns, GraphBuilder.oscillatorNodes osc i ts = Except.ok ns →
    ∀ n ∈ ns, n.node_type = "oscillator" ∧
      ∃ j ty, n.id = "osc_" ++ decStr j ++ "_" ++ ty := by
  intro ts
  induction ts with
  | nil =>
    intro i ns h n hn
    simp only [GraphBuilder.oscillatorNodes] at h
    cases h
    cases hn
  | cons t rest ih =>
    intro i ns h n hn
    simp only [GraphBuilder.oscillatorNodes] at h
    cases hp : GraphBuilder.get_oscillator_params t osc i with
    | error e => rw [hp] at h; simp [exceptBind_error] at h
    | ok params =>
    rw [hp] at h
    simp only [exceptBind_ok] at h
    cases hr : GraphBuilder.oscillatorNodes osc (i + 1) rest with
    | error e => rw [hr] at h; simp [exceptBind_error] at h
    | ok ns2 =>
    rw [hr] at h
    simp only [exceptBind_ok, Except.ok.injEq] at h
    subst h
    rcases hn with _ | ⟨_, hn⟩
    · exact ⟨rfl, i, t.value, rfl⟩
    · exact ih (i + 1) ns2 hr n hn

/-- The envelope node has id `env_main` and type `envelope`. -/
theorem envelopeNode_char (p : JsonPreset) (n : GraphBuilder.GraphNode)
    (h : GraphBuilder.envelopeNode p = Except.ok n) :
    n.id = "env_main" ∧ n.node_type = "envelope" := by
  simp only [GraphBuilder.envelopeNode] at h
  cases h1 : GraphBuilder.parse_time_to_seconds p.envelope.attack with
  | error e => rw [h1] at h; simp [exceptBind_error] at h
  | ok attack =>
  rw [h1] at h
  simp only [exceptBind_ok] at h
  cases h2 : GraphBuilder.parse_time_to_seconds p.envelope.decay with
  | error e => rw [h2] at h; simp [exceptBind_error] at h
  | ok decay =>
  rw [h2] at h
  simp only [exceptBind_ok] at h
  cases h3 : GraphBuilder.parse_time_to_seconds p.envelope.release with
  | error e => rw [h3] at h; simp [exceptBind_error] at h
  | ok release =>
  rw [h3] at h
  simp only [exceptBind_ok] at h
  by_cases hh : pyTruthy p.envelope.hold = true <;>
    by_cases hd : pyTruthy p.envelope.delay = true <;>
      simp only [hh, hd, if_true, if_false, Bool.false_eq_true,
        exceptBind_ok, exceptPure_eq_ok] at h
  case pos =>
    cases h4 : GraphBuilder.parse_time_to_seconds p.envelope.hold with
    | error e => rw [h4] at h; simp [exceptBind_error] at h
    | ok hv =>
    rw [h4] at h
    simp only [exceptBind_ok, exceptPure_eq_ok] at h
    cases h5 : GraphBuilder.parse_time_to_seconds p.envelope.delay with
    | error e => rw [h5] at h; simp [exceptBind_error] at h
    | ok dv =>
    rw [h5] at h
    simp only [exceptBind_ok, exceptPure_eq_ok, Except.ok.injEq] at h
    subst h
    exact ⟨rfl, rfl⟩
  case neg =>
    cases h4 : GraphBuilder.parse_time_to_seconds p.envelope.hold with
    | error e => rw [h4] at h; simp [exceptBind_error] at h
    | ok hv =>
    rw [h4] at h
    simp only [exceptBind_ok, exceptPure_eq_ok, Except.ok.injEq] at h
    subst h
    exact ⟨rfl, rfl⟩
  case pos =>
    cases h5 : GraphBuilder.parse_time_to_seconds p.envelope.delay with
    | error e => rw [h5] at h; simp [exceptBind_error] at h
    | ok dv =>
    rw [h5] at h
    simp only [exceptBind_ok, exceptPure_eq_ok, Except.ok.injEq] at h
    subst h
    exact ⟨rfl, rfl⟩
  case neg =>
    simp only [Except.ok.injEq] at h
    subst h
    exact ⟨rfl, rfl⟩

/-- The filter node has id `filter_main` and type `filter`. -/
theorem filterNode_char (p : JsonPreset) (n : GraphBuilder.GraphNode)
    (h : GraphBuilder.filterNode p = Except.ok n) :
    n.id = "filter_main" ∧ n.node_type = "filter" := by
  simp only [GraphBuilder.filterNode] at h
  cases h1 : GraphBuilder.parse_frequency_to_hz p.filter.cutoff with
  | error e => rw [h1] at h; simp [exceptBind_error] at h
  | ok cutoff =>
  rw [h1] at h
  simp only [exceptBind_ok, exceptPure_eq_ok, Except.ok.injEq] at h
  subst h
  exact ⟨rfl, rfl⟩

/-- The effect nodes carry the `fxIds` ids in order and all have type
`effect`. -/
theorem effectNodes_char :
    ∀ (fx : List EffectConfig) (i : Nat) (ns : List GraphBuilder.GraphNode),
    GraphBuilder.effectNodes i fx = Except.ok ns →
    ns.map GraphBuilder.GraphNode.id = fxIds i fx ∧
      ∀ n ∈ ns, n.node_type = "effect" := by
  intro fx
  induction fx with
  | nil =>
    intro i ns h
    simp only [GraphBuilder.effectNodes] at h
    cases h
    exact ⟨rfl, fun n hn => by cases hn⟩
  | cons e rest ih =>
    intro i ns h
    simp only [GraphBuilder.effectNodes] at h
    cases hp : GraphBuilder.get_effect_params e with
    | error er => rw [hp] at h; simp [exceptBind_error] at h
    | ok params =>
    rw [hp] at h
    simp only [exceptBind_ok] at h
    cases hr : GraphBuilder.effectNodes (i + 1) rest with
    | error er => rw [hr] at h; simp [exceptBind_error] at h
    | ok ns2 =>
    rw [hr] at h
    simp only [exceptBind_ok, Except.ok.injEq] at h
    subst h
    obtain ⟨hmap, htype⟩ := ih (i + 1) ns2 hr
    refine ⟨?_, ?_⟩
    · simp [fxIds, hmap]
    · intro n hn
      rcases hn with _ | ⟨_, hn⟩
      · rfl
      · exact htype n hn

/-- The edges of the effect chain starting from `cur`. -/
def chainEdges (cur : String) : List String →
    List (String × String × String × String)
  | [] => []
  | t :: rest => (cur, "audio_out", t, "audio_in") :: chainEdges t rest

/-- The `current_node` fold of `_connect_signal_chain` over the effect
nodes, starting from a present node, produces exactly the chain edges and
ends on the last effect (or the start node when there are none). -/
theorem chainFold_eq (fxl : List GraphBuilder.GraphNode) :
    ∀ (acc : List (String × String × String × String))
      (cur : GraphBuilder.GraphNode),
    fxl.foldl
      (fun (acc2 : List (String × String × String × String) ×
          Option GraphBuilder.GraphNode) fx =>
        match acc2.2 with
        | Option.some c =>
          (acc2.1 ++ [(c.id, "audio_out", fx.id, "audio_in")], Option.some fx)
        | Option.none => (acc2.1, Option.some fx))
      (acc, Option.some cur) =
      (acc ++ chainEdges cur.id (fxl.map GraphBuilder.GraphNode.id),
       Option.some (fxl.getLastD cur)) := by
  induction fxl with
  | nil => intro acc cur; simp [chainEdges]
  | cons fx rest ih =>
    intro acc cur
    simp only [List.foldl_cons, List.map_cons, chainEdges, List.getLastD_cons]
    rw [ih (acc ++ [(cur.id, "audio_out", fx.id, "audio_in")]) fx]
    simp

/-- The id of the last node in a list with a default. -/
theorem getLastD_map_id (fxl : List GraphBuilder.GraphNode)
    (cur : GraphBuilder.GraphNode) :
    (fxl.getLastD cur).id =
      (fxl.map GraphBuilder.GraphNode.id).getLastD cur.id := by
  induction fxl generalizing cur with
  | nil => rfl
  | cons fx rest ih =>
    rw [List.map_cons, List.getLastD_cons, List.getLastD_cons]
    exact ih fx

/-- Scans of the assembled node list, by node type. -/
theorem scans_eq (oscs fxns : List GraphBuilder.GraphNode)
    (envn filn : GraphBuilder.GraphNode)
    (hosc : ∀ n ∈ oscs, n.node_type = "oscillator")
    (henv : envn.node_type = "envelope")
    (hfil : filn.node_type = "filter")
    (hfx : ∀ n ∈ fxns, n.node_type = "effect") :
    (oscs ++ [envn] ++ [filn] ++ fxns ++ [GraphBuilder.stereoNode] ++
      [GraphBuilder.limiterNode, GraphBuilder.clipperNode]).filter
        (fun n => n.node_type == "oscillator") = oscs ∧
    (oscs ++ [envn] ++ [filn] ++ fxns ++ [GraphBuilder.stereoNode] ++
      [GraphBuilder.limiterNode, GraphBuilder.clipperNode]).find?
        (fun n => n.node_type == "envelope") = Option.some envn ∧
    (oscs ++ [envn] ++ [filn] ++ fxns ++ [GraphBuilder.stereoNode] ++
      [GraphBuilder.limiterNode, GraphBuilder.clipperNode]).find?
        (fun n => n.node_type == "filter") = Option.some filn ∧
    (oscs ++ [envn] ++ [filn] ++ fxns ++ [GraphBuilder.stereoNode] ++
      [GraphBuilder.limiterNode, GraphBuilder.clipperNode]).filter
        (fun n => n.node_type == "effect") = fxns ∧
    (oscs ++ [envn] ++ [filn] ++ fxns ++ [GraphBuilder.stereoNode] ++
      [GraphBuilder.limiterNode, GraphBuilder.clipperNode]).find?
        (fun n => n.node_type == "stereo") = Option.some GraphBuilder.stereoNode ∧
    (oscs ++ [envn] ++ [filn] ++ fxns ++ [GraphBuilder.stereoNode] ++
      [GraphBuilder.limiterNode, GraphBuilder.clipperNode]).find?
        (fun n => n.node_type == "limiter") =
          Option.some GraphBuilder.limiterNode ∧
    (oscs ++ [envn] ++ [filn] ++ fxns ++ [GraphBuilder.stereoNode] ++
      [GraphBuilder.limiterNode, GraphBuilder.clipperNode]).find?
        (fun n => n.node_type == "clipper") =
          Option.some GraphBuilder.clipperNode := by
  have hoscn : ∀ (ty : String), ty ≠ "oscillator" →
      oscs.find? (fun n => n.node_type == ty) = Option.none := by
    intro ty hty
    exact List.find?_eq_none.mpr (fun n hn => by
      rw [hosc n hn]
      simp only [beq_iff_eq]
      exact fun he => hty he.symm)
  have hfxn : ∀ (ty : String), ty ≠ "effect" →
      fxns.find? (fun n => n.node_type == ty) = Option.none := by
    intro ty hty
    exact List.find?_eq_none.mpr (fun n hn => by
      rw [hfx n hn]
      simp only [beq_iff_eq]
      exact fun he => hty he.symm)
  have hoscfilt : ∀ (ty : String), ty ≠ "oscillator" →
      oscs.filter (fun n => n.node_type == ty) = [] := by
    intro ty hty
    exact List.filter_eq_nil_iff.mpr (fun n hn => by
      rw [hosc n hn]
      simp only [beq_iff_eq]
      exact fun he => hty he.symm)
  have hfxfilt : ∀ (ty : String), ty ≠ "effect" →
      fxns.filter (fun n => n.node_type == ty) = [] := by
    intro ty hty
    exact List.filter_eq_nil_iff.mpr (fun n hn => by
      rw [hfx n hn]
      simp only [beq_iff_eq]
      exact fun he => hty he.symm)
  have hkeep_osc : oscs.filter (fun n => n.node_type == "oscillator") =
      oscs :=
    List.filter_eq_self.mpr (fun n hn => by rw [hosc n hn]; rfl)
  have hkeep_fx : fxns.filter (fun n => n.node_type == "effect") = fxns :=
    List.filter_eq_self.mpr (fun n hn => by rw [hfx n hn]; rfl)
  refine ⟨?_, ?_, ?_, ?_, ?_, ?_, ?_⟩
  · simp only [List.filter_append, hkeep_osc,
      hfxfilt "oscillator" (by decide)]
    simp [List.filter_cons, henv, hfil, GraphBuilder.stereoNode,
      GraphBuilder.limiterNode, GraphBuilder.clipperNode]
  · simp only [List.find?_append, hoscn "envelope" (by decide)]
    simp [List.find?_cons, henv]
  · simp only [List.find?_append, hoscn "filter" (by decide)]
    simp [List.find?_cons, henv, hfil]
  · simp only [List.filter_append, hkeep_fx,
      hoscfilt "effect" (by decide)]
    simp [List.filter_cons, henv, hfil, GraphBuilder.stereoNode,
      GraphBuilder.limiterNode, GraphBuilder.clipperNode]
  · simp only [List.find?_append, hoscn "stereo" (by decide),
      hfxn "stereo" (by decide)]
    simp [List.find?_cons, henv, hfil, GraphBuilder.stereoNode]
  · simp only [List.find?_append, hoscn "limiter" (by decide),
      hfxn "limiter" (by decide)]
    simp [List.find?_cons, henv, hfil, GraphBuilder.stereoNode,
      GraphBuilder.limiterNode]
  · simp only [List.find?_append, hoscn "clipper" (by decide),
      hfxn "clipper" (by decide)]
    simp [List.find?_cons, henv, hfil, GraphBuilder.stereoNode,
      GraphBuilder.limiterNode, GraphBuilder.clipperNode]

/-- Characterization of `_connect_signal_chain` on a node list of the
exact shape the builder assembles. -/
theorem connect_chain_eq (oscs fxns : List GraphBuilder.GraphNode)
    (envn filn : GraphBuilder.GraphNode)
    (hosc : ∀ n ∈ oscs, n.node_type = "oscillator")
    (henv : envn.node_type = "envelope")
    (hfil : filn.node_type = "filter")
    (hfx : ∀ n ∈ fxns, n.node_type = "effect") :
    GraphBuilder.connect_signal_chain
      (oscs ++ [envn] ++ [filn] ++ fxns ++ [GraphBuilder.stereoNode] ++
        [GraphBuilder.limiterNode, GraphBuilder.clipperNode]) =
    oscs.map (fun osc => (osc.id, "audio_out", filn.id, "audio_in")) ++
    [(envn.id, "env_out", filn.id, "mod_in")] ++
    chainEdges filn.id (fxns.map GraphBuilder.GraphNode.id) ++
    [((fxns.map GraphBuilder.GraphNode.id).getLastD filn.id, "audio_out",
      "stereo_width", "audio_in")] ++
    [("stereo_width", "left_out", "clipper_soft", "audio_in"),
     ("stereo_width", "right_out", "clipper_soft", "audio_in")] ++
    [("clipper_soft", "audio_out", "limiter_tp", "audio_in")] := by
  obtain ⟨s1, s2, s3, s4, s5, s6, s7⟩ :=
    scans_eq oscs fxns envn filn hosc henv hfil hfx
  unfold GraphBuilder.connect_signal_chain
  simp only [s1, s2, s3, s4, s5, s6, s7]
  rw [chainFold_eq fxns [] filn]
  simp only [List.nil_append, getLastD_map_id]
  rfl

/-- The rank certificate used for acyclicity: modulation sources and
oscillators at 0, the filter at 1, the `k`-th effect at `2 + k`, then the
stereo, clipper and limiter stages. -/
def rankFn (ids : List String) (s : String) : Nat :=
  if s = "filter_main" then 1
  else
    match posOf s ids with
    | Option.some i => 2 + i
    | Option.none =>
      if s = "stereo_width" then 2 + ids.length
      else if s = "clipper_soft" then 3 + ids.length
      else if s = "limiter_tp" then 4 + ids.length
      else 0

/-- Ids whose first three characters are not `fx_` are not effect ids. -/
theorem not_mem_of_take3 {ids : List String}
    (hshape : ∀ s ∈ ids, s.data.take 3 = ['f', 'x', '_']) {s : String}
    (h3 : s.data.take 3 ≠ ['f', 'x', '_']) : s ∉ ids :=
  fun hm => h3 (hshape s hm)

/-- Rank of the filter node. -/
theorem rankFn_filter (ids : List String) : rankFn ids "filter_main" = 1 := by
  simp [rankFn]

/-- Rank of an id that is neither the filter, an effect, nor one of the
output stages. -/
theorem rankFn_zero {ids : List String}
    (hshape : ∀ s ∈ ids, s.data.take 3 = ['f', 'x', '_']) {s : String}
    (h3 : s.data.take 3 ≠ ['f', 'x', '_']) (hf : s ≠ "filter_main")
    (hs : s ≠ "stereo_width") (hc : s ≠ "clipper_soft")
    (hl : s ≠ "limiter_tp") : rankFn ids s = 0 := by
  simp [rankFn, hf, hs, hc, hl,
    posOf_eq_none s ids (not_mem_of_take3 hshape h3)]

/-- Rank of the stereo stage. -/
theorem rankFn_stereo {ids : List String}
    (hshape : ∀ s ∈ ids, s.data.take 3 = ['f', 'x', '_']) :
    rankFn ids "stereo_width" = 2 + ids.length := by
  simp [rankFn,
    posOf_eq_none "stereo_width" ids (not_mem_of_take3 hshape (by decide))]

/-- Rank of the clipper stage. -/
theorem rankFn_clipper {ids : List String}
    (hshape : ∀ s ∈ ids, s.data.take 3 = ['f', 'x', '_']) :
    rankFn ids "clipper_soft" = 3 + ids.length := by
  simp [rankFn,
    posOf_eq_none "clipper_soft" ids (not_mem_of_take3 hshape (by decide))]

/-- Rank of the limiter stage. -/
theorem rankFn_limiter {ids : List String}
    (hshape : ∀ s ∈ ids, s.data.take 3 = ['f', 'x', '_']) :
    rankFn ids "limiter_tp" = 4 + ids.length := by
  simp [rankFn,
    posOf_eq_none "limiter_tp" ids (not_mem_of_take3 hshape (by decide))]

/-- Rank of the `k`-th effect id. -/
theorem rankFn_get {ids : List String} (hnd : ids.Nodup)
    (hshape : ∀ s ∈ ids, s.data.take 3 = ['f', 'x', '_']) (k : Nat)
    (hk : k < ids.length) : rankFn ids (ids.get ⟨k, hk⟩) = 2 + k := by
  have hmem := List.get_mem ids k hk
  have h3 := hshape _ hmem
  have hf : ids.get ⟨k, hk⟩ ≠ "filter_main" := by
    intro he
    rw [he] at h3
    simp at h3
  unfold rankFn
  rw [if_neg hf, posOf_get ids hnd k hk]

/-- Membership in the chain edges, by index. -/
theorem chainEdges_mem (ids : List String) :
    ∀ (cur : String) (e : String × String × String × String),
    e ∈ chainEdges cur ids → ∃ k, k < ids.length ∧
      e = ((cur :: ids).getD k "", "audio_out", ids.getD k "", "audio_in") := by
  induction ids with
  | nil => intro cur e he; cases he
  | cons t rest ih =>
    intro cur e he
    rcases he with _ | ⟨_, he⟩
    · exact ⟨0, by simp, rfl⟩
    · obtain ⟨k, hk, hval⟩ := ih t e he
      refine ⟨k + 1, by simpa using hk, ?_⟩
      simpa using hval

/-- Every chain edge increases the rank. -/
theorem chain_edge_rank {ids : List String} (hnd : ids.Nodup)
    (hshape : ∀ s ∈ ids, s.data.take 3 = ['f', 'x', '_'])
    (e : String × String × String × String)
    (he : e ∈ chainEdges "filter_main" ids) :
    rankFn ids e.1 < rankFn ids e.2.2.1 := by
  obtain ⟨k, hk, hval⟩ := chainEdges_mem ids "filter_main" e he
  subst hval
  have hto : ids.getD k "" = ids.get ⟨k, hk⟩ := List.getD_eq_get ids "" hk
  cases k with
  | zero =>
    simp only [List.getD_cons_zero, hto, rankFn_filter]
    rw [rankFn_get hnd hshape 0 hk]
    omega
  | succ m =>
    have hm : m < ids.length := by omega
    have hfrom : (("filter_main" :: ids).getD (m + 1) "") =
        ids.get ⟨m, hm⟩ := by
      rw [List.getD_cons_succ]
      rw [List.getD_eq_get ids "" hm]
    simp only [hfrom, hto]
    rw [rankFn_get hnd hshape m hm, rankFn_get hnd hshape (m + 1) hk]
    omega

/-- The last element of a list with a default is the default or an
indexed element. -/
theorem getLastD_cases (l : List String) (d : String) :
    l.getLastD d = d ∧ l = [] ∨
    ∃ hk : l.length - 1 < l.length,
      l.getLastD d = l.get ⟨l.length - 1, hk⟩ := by
  cases l with
  | nil => exact Or.inl ⟨rfl, rfl⟩
  | cons t rest =>
    right
    refine ⟨by simp, ?_⟩
    rw [List.getLastD_eq_getLast? , List.getLast?_eq_getLast (t :: rest)
      (by simp), List.getLast_eq_get]
    rfl

/-- Character data of an `osc_{j}_{ty}` id. -/
theorem oscId_data (j : Nat) (ty : String) :
    ("osc_" ++ decStr j ++ "_" ++ ty).data =
      'o' :: 's' :: 'c' :: '_' :: (decChars j ++ '_' :: ty.data) := by
  simp [decStr, str_data_append, String.data]

/-- The first three characters of an oscillator id. -/
theorem oscId_take3 (j : Nat) (ty : String) :
    ("osc_" ++ decStr j ++ "_" ++ ty).data.take 3 = ['o', 's', 'c'] := by
  rw [oscId_data]
  rfl

/-- C8: acyclicity.  First conjunct: for every preset on which
`build_graph` succeeds, the connection list of the returned graph induces
no directed cycle (certified by a rank function that strictly increases
along every connection).  Second conjunct: the DFS-based detector
`_has_feedback_loops` flags an intentionally inserted back-edge — a
connection re-entering a node already on the recursion stack — on an
otherwise valid built graph. -/
theorem c8_graph_acyclic :
    (∀ (st : GraphBuilder.BuilderState) (p : JsonPreset)
      (g : GraphBuilder.Graph) (st2 : GraphBuilder.BuilderState),
      GraphBuilder.build_graph st p = Except.ok (g, st2) →
      ¬ CycleIn g.connections) ∧
    GraphBuilder.has_feedback_loops c7nodes
      (c7conns ++ [("filter_main", "audio_out", "osc_0_sine", "audio_in")]) =
      true := by
  constructor
  · intro st p g st2 h
    simp only [GraphBuilder.build_graph] at h
    cases h1 : GraphBuilder.oscillatorNodes p.oscillator 0
        p.oscillator.types with
    | error e => rw [h1] at h; simp [exceptBind_error] at h
    | ok oscs =>
    rw [h1] at h
    simp only [exceptBind_ok] at h
    cases h2 : GraphBuilder.envelopeNode p with
    | error e => rw [h2] at h; simp [exceptBind_error] at h
    | ok envn =>
    rw [h2] at h
    simp only [exceptBind_ok] at h
    cases h3 : GraphBuilder.filterNode p with
    | error e => rw [h3] at h; simp [exceptBind_error] at h
    | ok filn =>
    rw [h3] at h
    simp only [exceptBind_ok] at h
    cases h4 : GraphBuilder.effectNodes 0 p.fx with
    | error e => rw [h4] at h; simp [exceptBind_error] at h
    | ok fxns =>
    rw [h4] at h
    simp only [exceptBind_ok] at h
    cases h5 : GraphBuilder.validate_graph
        ((oscs ++ [envn] ++ [filn] ++ fxns ++ [GraphBuilder.stereoNode] ++
          [GraphBuilder.limiterNode, GraphBuilder.clipperNode]) ++
          [GraphBuilder.lfoNode])
        (GraphBuilder.connect_signal_chain
          (oscs ++ [envn] ++ [filn] ++ fxns ++ [GraphBuilder.stereoNode] ++
            [GraphBuilder.limiterNode, GraphBuilder.clipperNode]) ++
          (match ((oscs ++ [envn] ++ [filn] ++ fxns ++
              [GraphBuilder.stereoNode] ++
              [GraphBuilder.limiterNode, GraphBuilder.clipperNode]) ++
              [GraphBuilder.lfoNode]).find?
              (fun n => n.node_type == "filter") with
           | Option.some f => [("lfo_main", "lfo_out", f.id, "mod_in")]
           | Option.none => [])) with
    | error e => rw [h5] at h; simp [exceptBind_error] at h
    | ok vres =>
    rw [h5] at h
    simp only [exceptBind_ok, exceptPure_eq_ok, Except.ok.injEq,
      Prod.mk.injEq] at h
    obtain ⟨hg, _⟩ := h
    subst hg
    -- node shapes
    have hoscC := oscillatorNodes_char p.oscillator p.oscillator.types 0
      oscs h1
    have henvC := envelopeNode_char p envn h2
    have hfilC := filterNode_char p filn h3
    have hfxC := effectNodes_char p.fx 0 fxns h4
    have hosc_t : ∀ n ∈ oscs, n.node_type = "oscillator" :=
      fun n hn => (hoscC n hn).1
    -- the connection list in explicit form
    have hchain := connect_chain_eq oscs fxns envn filn hosc_t henvC.2
      hfilC.2 hfxC.2
    have hfind := (scans_eq oscs fxns envn filn hosc_t henvC.2 hfilC.2
      hfxC.2).2.2.1
    have hlfo : (((oscs ++ [envn] ++ [filn] ++ fxns ++
        [GraphBuilder.stereoNode] ++
        [GraphBuilder.limiterNode, GraphBuilder.clipperNode]) ++
        [GraphBuilder.lfoNode]).find? (fun n => n.node_type == "filter")) =
        Option.some filn := by
      rw [List.find?_append, hfind]
      rfl
    set ids := fxns.map GraphBuilder.GraphNode.id with hids
    have hnd : ids.Nodup := by
      rw [hfxC.1]
      exact fxIds_nodup p.fx 0
    have hshape : ∀ s ∈ ids, s.data.take 3 = ['f', 'x', '_'] := by
      rw [hfxC.1]
      exact fun s hs => mem_fxIds_take3 hs
    apply no_cycle_of_rank _ (rankFn ids)
    intro c hc
    simp only [hchain, hlfo, henvC.1, hfilC.1] at hc
    simp only [List.append_assoc, List.mem_append, List.mem_map,
      List.mem_cons, List.mem_singleton, List.not_mem_nil, or_false] at hc
    have rzero : ∀ (s : String), s.data.take 3 ≠ ['f', 'x', '_'] →
        s ≠ "filter_main" → s ≠ "stereo_width" → s ≠ "clipper_soft" →
        s ≠ "limiter_tp" → rankFn ids s = 0 :=
      fun s a b cq d e => rankFn_zero hshape a b cq d e
    rcases hc with ⟨o, hoin, hoc⟩ | hc | hc | hc | (hc | hc) | hc | hc
    · subst hoc
      obtain ⟨j, ty, hid⟩ := (hoscC o hoin).2
      simp only [hid, rankFn_filter]
      rw [rzero _ (by rw [oscId_take3]; decide) (by
          apply ne_of_take3; rw [oscId_take3]; decide) (by
          apply ne_of_take3; rw [oscId_take3]; decide) (by
          apply ne_of_take3; rw [oscId_take3]; decide) (by
          apply ne_of_take3; rw [oscId_take3]; decide)]
      omega
    · subst hc
      simp only [rankFn_filter]
      rw [rzero "env_main" (by decide) (by decide) (by decide) (by decide)
        (by decide)]
      omega
    · exact chain_edge_rank hnd hshape c hc
    · subst hc
      simp only [rankFn_stereo hshape]
      rcases getLastD_cases ids "filter_main" with ⟨hval, _⟩ | ⟨hk, hval⟩
      · simp only [hval, rankFn_filter]
        omega
      · simp only [hval]
        rw [rankFn_get hnd hshape (ids.length - 1) hk]
        omega
    · subst hc
      rw [rankFn_stereo hshape, rankFn_clipper hshape]
      omega
    · subst hc
      rw [rankFn_stereo hshape, rankFn_clipper hshape]
      omega
    · subst hc
      rw [rankFn_clipper hshape, rankFn_limiter hshape]
      omega
    · subst hc
      simp only [rankFn_filter]
      rw [rzero "lfo_main" (by decide) (by decide) (by decide) (by decide)
        (by decide)]
      omega
  · decide

/-- Witness for C8 at a concrete build. -/
theorem c8_graph_acyclic_witness :
    GraphBuilder.build_graph GraphBuilder.initBuilder c7preset =
      Except.ok (c7graph, c7bst) ∧ ¬ CycleIn c7graph.connections :=
  ⟨c7_build_eval, c8_graph_acyclic.1 GraphBuilder.initBuilder c7preset
    c7graph c7bst c7_build_eval⟩

/-- A preset whose filter cutoff is the numeric value 25000.0 Hz. -/
def c3preset : JsonPreset :=
  mkPreset "Cutoff" (simpleEnv (.num 50)) (simpleFilter (.num 25000)) []

/-- The normalization result of `c3preset`: the cutoff is kept at 25000.0
(not clamped) and the out-of-range issue is recorded. -/
def c3np : NormalizedPreset :=
  { c7np with
      name := "Cutoff"
      filter := { c7np.filter with cutoff := 25000 }
      validation_issues := [UnitNormalizer.cutoff_issue 25000] }

/-- The filter node the builder creates for `c3preset`. -/
def c3filN : GraphBuilder.GraphNode :=
  { c7filN with parameters := [("type", PyVal.str "low-pass"),
      ("cutoff", PyVal.num 25000), ("resonance", PyVal.num 0),
      ("envelope_amount", PyVal.num 0), ("slope", PyVal.str "12dB/oct")] }

/-- The node list of the graph built from `c3preset`. -/
def c3nodes : List GraphBuilder.GraphNode :=
  [c7oscN, c7envN, c3filN, GraphBuilder.stereoNode,
   GraphBuilder.limiterNode, GraphBuilder.clipperNode, GraphBuilder.lfoNode]

/-- The validation error the graph validator reports for the 25000 Hz
cutoff. -/
def c3graphErr : String :=
  "Filter cutoff " ++ ratStr 25000 ++ "Hz out of range [20, 20000]"

/-- The graph built from `c3preset`: fully formed but failing validation
with the cutoff error. -/
def c3graph : GraphBuilder.Graph :=
  { nodes := c3nodes, connections := c7conns, virtual_busses := [],
    validation_passed := false, validation_errors := [c3graphErr] }

/-- Stage evaluation: the oscillator nodes of `c3preset`. -/
theorem c3e_osc : GraphBuilder.oscillatorNodes c3preset.oscillator 0
    c3preset.oscillator.types = Except.ok [c7oscN] := rfl

/-- Stage evaluation: the envelope node of `c3preset`. -/
theorem c3e_env : GraphBuilder.envelopeNode c3preset = Except.ok c7envN := rfl

/-- Stage evaluation: the filter node of `c3preset`. -/
theorem c3e_fil : GraphBuilder.filterNode c3preset = Except.ok c3filN := rfl

/-- Stage evaluation: the signal chain wiring of the `c3preset` nodes. -/
theorem c3e_chain : GraphBuilder.connect_signal_chain
    [c7oscN, c7envN, c3filN, GraphBuilder.stereoNode,
     GraphBuilder.limiterNode, GraphBuilder.clipperNode] =
    [("osc_0_sine", "audio_out", "filter_main", "audio_in"),
     ("env_main", "env_out", "filter_main", "mod_in"),
     ("filter_main", "audio_out", "stereo_width", "audio_in"),
     ("stereo_width", "left_out", "clipper_soft", "audio_in"),
     ("stereo_width", "right_out", "clipper_soft", "audio_in"),
     ("clipper_soft", "audio_out", "limiter_tp", "audio_in")] := by decide

/-- Stage evaluation: the LFO target lookup for `c3preset`. -/
theorem c3e_find : List.find? (fun n => n.node_type == "filter")
    [c7oscN, c7envN, c3filN, GraphBuilder.stereoNode,
     GraphBuilder.limiterNode, GraphBuilder.clipperNode,
     GraphBuilder.lfoNode] = Option.some c3filN := by decide

/-- The id of the `c3preset` filter node. -/
theorem c3filN_id : c3filN.id = "filter_main" := rfl

/-- Stage evaluation: no feedback loop in the `c3preset` graph. -/
theorem c3e_dfs : GraphBuilder.has_feedback_loops c3nodes c7conns = false := by
  decide

/-- Stage evaluation: connectivity of the `c3preset` graph. -/
theorem c3e_disc : GraphBuilder.disconnectedErrors c3nodes c7conns = [] := by
  decide

/-- Stage evaluation: the range checks report exactly the cutoff error. -/
theorem c3e_range : GraphBuilder.nodeRangeErrors c3nodes [] =
    Except.ok [c3graphErr] := by
  have h1 : ¬ ((25000 : Rat) < 20) := by norm_num
  have h2 : ((20000 : Rat) < 25000) := by norm_num
  have h3 : ¬ ((9/10 : Rat) < 0) := by norm_num
  simp only [GraphBuilder.nodeRangeErrors, GraphBuilder.pyGetParam,
    GraphBuilder.pyValLtNum, GraphBuilder.pyValGtNum, exceptBind_ok,
    c7oscN, c7envN, c3filN, c7filN, GraphBuilder.stereoNode,
    GraphBuilder.limiterNode, GraphBuilder.clipperNode,
    GraphBuilder.lfoNode, List.lookup, Option.getD, h1, h2, h3,
    decide_False, String.reduceEq, String.reduceBEq, exceptPure_eq_ok,
    reduceIte, Bool.or_false, Bool.false_or, Bool.or_self, if_false,
    if_true, decide_True, gt_iff_lt]
  simp [c3graphErr, GraphBuilder.pyValStr]

/-- Stage evaluation: validation of the `c3preset` graph fails with the
cutoff error. -/
theorem c3e_validate : GraphBuilder.validate_graph c3nodes c7conns =
    Except.ok (false, [c3graphErr]) := by
  simp only [GraphBuilder.validate_graph, c3e_dfs, c3e_range, c3e_disc,
    exceptBind_ok, exceptPure_eq_ok, Bool.false_eq_true, if_false,
    List.append_nil]
  simp

/-- The full evaluation of `build_graph` on `c3preset`. -/
theorem c3_build_eval : GraphBuilder.build_graph GraphBuilder.initBuilder
    c3preset = Except.ok (c3graph, c7bst) := by
  simp only [GraphBuilder.build_graph, c3e_osc, c3e_env, c3e_fil,
    exceptBind_ok, exceptPure_eq_ok, List.cons_append, List.nil_append,
    List.append_nil,
    show GraphBuilder.effectNodes 0 c3preset.fx = Except.ok [] from rfl,
    c3e_chain, c3e_find, c3filN_id]
  rw [show GraphBuilder.validate_graph
      [c7oscN, c7envN, c3filN, GraphBuilder.stereoNode,
       GraphBuilder.limiterNode, GraphBuilder.clipperNode,
       GraphBuilder.lfoNode]
      [("osc_0_sine", "audio_out", "filter_main", "audio_in"),
       ("env_main", "env_out", "filter_main", "mod_in"),
       ("filter_main", "audio_out", "stereo_width", "audio_in"),
       ("stereo_width", "left_out", "clipper_soft", "audio_in"),
       ("stereo_width", "right_out", "clipper_soft", "audio_in"),
       ("clipper_soft", "audio_out", "limiter_tp", "audio_in"),
       ("lfo_main", "lfo_out", "filter_main", "mod_in")] =
      Except.ok (false, [c3graphErr]) from c3e_validate]
  simp only [exceptBind_ok, exceptPure_eq_ok]
  rfl

/-- C3 amended: a filter cutoff of the string `"25kHz"` is *not* resolved
to 25000.0 Hz — the `Hz` suffix check shadows the `kHz` branch and
`float("25k")` raises an uncaught `ValueError`, so normalization produces
nothing for such a preset.  A numeric cutoff of 25000.0 is *not* clamped
to 20000.0: normalization keeps 25000.0 and only records the out-of-range
issue on the `NormalizedPreset`, and a graph built from that preset fails
validation with an error naming the cutoff. -/
theorem c3_cutoff_pipeline :
    UnitNormalizer.normalize_frequency (.str "25kHz") "filter.cutoff" [] =
      Except.error (valueErrorFloat "25k") ∧
    UnitNormalizer.normalize (fun _ => 1) (fun _ => 0) c3preset =
      Except.ok c3np ∧
    c3np.filter.cutoff = 25000 ∧
    UnitNormalizer.cutoff_issue 25000 ∈ c3np.validation_issues ∧
    GraphBuilder.build_graph GraphBuilder.initBuilder c3preset =
      Except.ok (c3graph, c7bst) ∧
    c3graph.validation_passed = false ∧
    c3graphErr ∈ c3graph.validation_errors := by
  refine ⟨rfl, ?_, rfl, List.mem_singleton_self _, c3_build_eval, rfl,
    List.mem_singleton_self _⟩
  norm_num [UnitNormalizer.normalize, UnitNormalizer.normalize_envelope,
    UnitNormalizer.normalize_time, UnitNormalizer.normalize_percentage,
    UnitNormalizer.normalize_filter, UnitNormalizer.normalize_frequency,
    UnitNormalizer.normalize_oscillator, UnitNormalizer.normalize_detune,
    UnitNormalizer.normalize_mix_ratios, UnitNormalizer.mixRatioFloats,
    UnitNormalizer.normalize_effects, UnitNormalizer.determine_role,
    UnitNormalizer.apply_role_defaults, UnitNormalizer.role_default_env,
    UnitNormalizer.validate_safety_constraints, UnitNormalizer.effect_issues,
    c3preset, c3np, c7np, mkPreset, simpleEnv, simpleFilter, simpleOsc,
    simpleChars, simpleTopo, simpleAI, exceptBind_ok, exceptPure_eq_ok,
    pyTruthy]
